import Mathlib

/- Verification of the glowl header-only OpenGL wrapper library.

   The development shallowly embeds the library's classes as Lean functions
   that return the sequence of native OpenGL calls each operation issues,
   together with the resulting object state, any exception thrown, and any
   diagnostic output.  Native driver behaviour that the code merely observes
   (error codes returned by glGetError, compile/link results, uniform
   locations) is passed in as explicit parameters or as a driver environment.

   GLenum / GLuint values are modelled as Nat, GLint / GLsizei / GLintptr as
   Int, GLboolean as Bool, and GLfloat and untyped data pointers as opaque
   type parameters F and P (the code never computes with them, it only
   forwards them).  Conversions between signed and unsigned 32-bit values
   performed by the C++ code are made explicit with uintOfInt / intOfUint. -/

namespace Glowl

/-! Section: OpenGL enum constants used by the embedded code (values from the
    official OpenGL registry headers). -/

def GL_NO_ERROR : Nat := 0
def GL_BYTE : Nat := 0x1400
def GL_UNSIGNED_BYTE : Nat := 0x1401
def GL_SHORT : Nat := 0x1402
def GL_UNSIGNED_SHORT : Nat := 0x1403
def GL_INT : Nat := 0x1404
def GL_UNSIGNED_INT : Nat := 0x1405
def GL_FLOAT : Nat := 0x1406
def GL_DOUBLE : Nat := 0x140A
def GL_HALF_FLOAT : Nat := 0x140B
def GL_FIXED : Nat := 0x140C
def GL_INT_2_10_10_10_REV : Nat := 0x8D9F
def GL_UNSIGNED_INT_2_10_10_10_REV : Nat := 0x8368
def GL_UNSIGNED_INT_10F_11F_11F_REV : Nat := 0x8C3B
def GL_TRIANGLES : Nat := 0x0004
def GL_TEXTURE_2D_ARRAY : Nat := 0x8C1A
def GL_SHADER_STORAGE_BUFFER : Nat := 0x90D2
def GL_DYNAMIC_DRAW : Nat := 0x88E8
def GL_COMPILE_STATUS : Nat := 0x8B81
def GL_LINK_STATUS : Nat := 0x8B82
def GL_INFO_LOG_LENGTH : Nat := 0x8B84
def GL_VERTEX_SHADER : Nat := 0x8B31
def GL_FRAGMENT_SHADER : Nat := 0x8B30

/-- Value of a C++ `unsigned int` obtained by converting the `int` value `i`
    (conversion is reduction modulo 2^32). -/
def uintOfInt (i : Int) : Nat := (i % (2 ^ 32 : Int)).toNat

/-- Value of a C++ `int` obtained by converting the `unsigned int` value `n`
    (two's-complement reinterpretation, as all relevant implementations do). -/
def intOfUint (n : Nat) : Int :=
  if n < 2 ^ 31 then (n : Int) else (n : Int) - 2 ^ 32

/-- Value of a C++ `std::size_t` obtained by converting the `int` value `i`. -/
def sizetOfInt (i : Int) : Nat := (i % (2 ^ 64 : Int)).toNat

/-! Section: VertexLayout.hpp -/

/-- Embeds `glowl::VertexLayout::Attribute` (VertexLayout.hpp).
    `size`, `offset` are GLint / GLsizei (C++ int), `type` and
    `shader_input_type` are GLenum, `normalized` is GLboolean. -/
structure Attribute where
  size : Int
  type : Nat
  normalized : Bool
  offset : Int
  shader_input_type : Nat
deriving DecidableEq, Repr

/-- Embeds `glowl::VertexLayout` (VertexLayout.hpp). -/
structure VertexLayout where
  stride : Int
  buffer_start_offset : Int
  buffer_name : Nat
  attributes : List Attribute
deriving DecidableEq, Repr

/-- Embeds `glowl::computeByteSize` (VertexLayout.hpp lines 138-188): the
    C++ switch over the GLenum `value_type`, default 0.  The patterns are the
    numeric values of GL_BYTE, GL_SHORT, GL_INT, GL_FIXED, GL_FLOAT,
    GL_HALF_FLOAT, GL_DOUBLE, GL_UNSIGNED_BYTE, GL_UNSIGNED_SHORT,
    GL_UNSIGNED_INT, GL_INT_2_10_10_10_REV, GL_UNSIGNED_INT_2_10_10_10_REV
    and GL_UNSIGNED_INT_10F_11F_11F_REV, in the order of the switch cases. -/
def computeByteSize (value_type : Nat) : Nat :=
  match value_type with
  | 0x1400 => 1
  | 0x1402 => 2
  | 0x1404 => 4
  | 0x140C => 4
  | 0x1406 => 4
  | 0x140B => 2
  | 0x140A => 8
  | 0x1401 => 1
  | 0x1403 => 2
  | 0x1405 => 4
  | 0x8D9F => 4
  | 0x8368 => 4
  | 0x8C3B => 4
  | _ => 0

/-- The thirteen GLenum values recognized by `computeByteSize`, in the order
    of the switch cases. -/
def recognizedGLTypes : List Nat :=
  [GL_BYTE, GL_SHORT, GL_INT, GL_FIXED, GL_FLOAT, GL_HALF_FLOAT, GL_DOUBLE,
   GL_UNSIGNED_BYTE, GL_UNSIGNED_SHORT, GL_UNSIGNED_INT,
   GL_INT_2_10_10_10_REV, GL_UNSIGNED_INT_2_10_10_10_REV,
   GL_UNSIGNED_INT_10F_11F_11F_REV]

/-- Embeds `glowl::computeAttributeByteSize` (VertexLayout.hpp lines 190-193):
    `computeByteSize(attrib_desc.type) * attrib_desc.size`, computed in
    `std::size_t` arithmetic (the int `size` is converted to size_t and the
    product reduced modulo 2^64). -/
def computeAttributeByteSize (attrib_desc : Attribute) : Nat :=
  (computeByteSize attrib_desc.type * sizetOfInt attrib_desc.size) % 2 ^ 64

/-- Embeds `glowl::operator==(VertexLayout::Attribute const&,
    VertexLayout::Attribute const&)` (VertexLayout.hpp lines 111-115). -/
def attributeEq (lhs rhs : Attribute) : Bool :=
  lhs.normalized == rhs.normalized && lhs.offset == rhs.offset &&
    lhs.size == rhs.size && lhs.type == rhs.type &&
    lhs.shader_input_type == rhs.shader_input_type

/-- Embeds `glowl::operator==(VertexLayout const&, VertexLayout const&)`
    (VertexLayout.hpp lines 117-136): `rtn &= stride equality`, then if the
    attribute counts agree a loop accumulating `rtn &= attrs[i] == attrs[i]`
    over all indices, else `rtn = false`. -/
def vertexLayoutEq (lhs rhs : VertexLayout) : Bool :=
  if lhs.attributes.length = rhs.attributes.length then
    (lhs.attributes.zip rhs.attributes).foldl
      (fun acc p => acc && attributeEq p.1 p.2)
      (true && (lhs.stride == rhs.stride))
  else
    false

/-- Concrete layout used to exhibit that buffer identity does not influence
    layout equality. -/
def bufferedLayoutA : VertexLayout :=
  { stride := 12, buffer_start_offset := 0, buffer_name := 7,
    attributes := [{ size := 3, type := GL_FLOAT, normalized := false,
                     offset := 0, shader_input_type := GL_FLOAT }] }

/-- Same attribute data as `bufferedLayoutA` but a different buffer handle
    and a different start offset. -/
def bufferedLayoutB : VertexLayout :=
  { stride := 12, buffer_start_offset := 64, buffer_name := 9,
    attributes := [{ size := 3, type := GL_FLOAT, normalized := false,
                     offset := 0, shader_input_type := GL_FLOAT }] }

/-! Section: Native call traces

    `GLCall F P` is one native OpenGL call together with its arguments, as
    issued by the embedded code.  `F` is the opaque type of GLfloat values
    and `P` the opaque type of non-null data pointers. -/

/-- Exceptions thrown by glowl, tagged with the C++ exception class. -/
inductive GlowlExn : Type
  | mesh (msg : String)
  | glslProgram (msg : String)
deriving DecidableEq, Repr

abbrev Vec2 (F : Type) : Type := F × F
abbrev Vec3 (F : Type) : Type := F × F × F
abbrev Vec4 (F : Type) : Type := F × F × F × F
abbrev Mat2 (F : Type) : Type := Vec2 (Vec2 F)
abbrev Mat3 (F : Type) : Type := Vec3 (Vec3 F)
abbrev Mat4 (F : Type) : Type := Vec4 (Vec4 F)

/-- One native OpenGL call with its arguments. -/
inductive GLCall (F P : Type) : Type
  | createVertexArrays (n : Nat)
  | vertexArrayVertexBuffer (vaobj bindingindex buffer : Nat)
      (offset : Int) (stride : Int)
  | enableVertexArrayAttrib (vaobj index : Nat)
  | vertexArrayAttribFormat (vaobj attribindex : Nat) (size : Int)
      (type : Nat) (normalized : Bool) (relativeoffset : Int)
  | vertexArrayAttribIFormat (vaobj attribindex : Nat) (size : Int)
      (type : Nat) (relativeoffset : Int)
  | vertexArrayAttribLFormat (vaobj attribindex : Nat) (size : Int)
      (type : Nat) (relativeoffset : Int)
  | vertexArrayAttribBinding (vaobj attribindex bindingindex : Nat)
  | vertexArrayElementBuffer (vaobj buffer : Nat)
  | bindVertexArray (array : Nat)
  | drawElementsInstanced (mode : Nat) (count : Int) (type : Nat)
      (indices : Option P) (instancecount : Int)
  | drawArraysInstanced (mode : Nat) (first count instancecount : Int)
  | getError
  | createProgram
  | createShader (shaderType : Nat)
  | shaderSource (shader : Nat) (source : String)
  | compileShader (shader : Nat)
  | getShaderiv (shader pname : Nat)
  | getShaderInfoLog (shader : Nat) (maxLength : Int)
  | attachShader (program shader : Nat)
  | deleteShader (shader : Nat)
  | linkProgram (program : Nat)
  | getProgramiv (program pname : Nat)
  | getProgramInfoLog (program : Nat) (maxLength : Int)
  | deleteProgram (program : Nat)
  | useProgram (program : Nat)
  | bindAttribLocation (program location : Nat) (name : String)
  | bindFragDataLocation (program location : Nat) (name : String)
  | getUniformLocation (program : Nat) (name : String)
  | uniform1f (location : Int) (v0 : F)
  | uniform2f (location : Int) (v0 v1 : F)
  | uniform3f (location : Int) (v0 v1 v2 : F)
  | uniform4f (location : Int) (v0 v1 v2 v3 : F)
  | uniform1i (location : Int) (v0 : Int)
  | uniform2i (location : Int) (v0 v1 : Int)
  | uniform3i (location : Int) (v0 v1 v2 : Int)
  | uniform4i (location : Int) (v0 v1 v2 v3 : Int)
  | uniform1ui (location : Int) (v0 : Nat)
  | uniform2ui (location : Int) (v0 v1 : Nat)
  | uniform3ui (location : Int) (v0 v1 v2 : Nat)
  | uniform4ui (location : Int) (v0 v1 v2 v3 : Nat)
  | uniform2fv (location : Int) (count : Int) (value : Vec2 F)
  | uniform3fv (location : Int) (count : Int) (value : Vec3 F)
  | uniform4fv (location : Int) (count : Int) (value : Vec4 F)
  | uniform2iv (location : Int) (count : Int) (value : Vec2 Int)
  | uniform3iv (location : Int) (count : Int) (value : Vec3 Int)
  | uniform4iv (location : Int) (count : Int) (value : Vec4 Int)
  | uniformMatrix2fv (location : Int) (count : Int) (transpose : Bool)
      (value : Mat2 F)
  | uniformMatrix3fv (location : Int) (count : Int) (transpose : Bool)
      (value : Mat3 F)
  | uniformMatrix4fv (location : Int) (count : Int) (transpose : Bool)
      (value : Mat4 F)
  | genTextures (n : Nat)
  | bindTexture (target texture : Nat)
  | texParameteri (target pname : Nat) (param : Int)
  | texParameterf (target pname : Nat) (param : F)
  | texStorage3D (target : Nat) (levels : Int) (internalformat : Nat)
      (width height depth : Int)
  | texSubImage3D (target : Nat)
      (level xoffset yoffset zoffset width height depth : Int)
      (format type : Nat) (pixels : Option P)
  | generateMipmap (target : Nat)
  | getTextureHandleARB (texture : Nat)
  | genBuffers (n : Nat)
  | bindBuffer (target buffer : Nat)
  | bufferData (target : Nat) (size : Nat) (data : Option P) (usage : Nat)
  | bindBufferBase (target index buffer : Nat)

variable {F P : Type}

/-- True exactly on the `getError` call, used to count error-code queries. -/
def isGetErrorCall : GLCall F P → Bool
  | .getError => true
  | _ => false

/-- True exactly on `Except.error`. -/
def exceptIsError {ε α : Type} : Except ε α → Bool
  | .error _ => true
  | .ok _ => false

/-! Section: Mesh.hpp: VertexArrayObject -/

/-- A vertex shader input type accepted by the switch in
    `VertexArrayObject::createVertexArray`. -/
def validInputType (a : Attribute) : Prop :=
  a.shader_input_type = GL_FLOAT ∨ a.shader_input_type = GL_INT ∨
    a.shader_input_type = GL_UNSIGNED_INT ∨ a.shader_input_type = GL_DOUBLE

instance (a : Attribute) : Decidable (validInputType a) := by
  unfold validInputType; infer_instance

/-- Message of the MeshException thrown for an invalid shader input type
    (Mesh.hpp lines 196-197). -/
def invalidInputTypeMsg : String :=
  "Mesh::createVertexArray - invalid vertex shader input type given (use float, double or int)"

/-- The format call selected by the switch on `attribute.shader_input_type`
    in `VertexArrayObject::createVertexArray` (Mesh.hpp lines 170-199), or
    the MeshException thrown by the default case. -/
def attribFormatCall (va gidx : Nat) (a : Attribute) :
    Except GlowlExn (GLCall F P) :=
  if a.shader_input_type = GL_FLOAT then
    .ok (.vertexArrayAttribFormat va gidx a.size a.type a.normalized a.offset)
  else if a.shader_input_type = GL_INT ∨ a.shader_input_type = GL_UNSIGNED_INT then
    .ok (.vertexArrayAttribIFormat va gidx a.size a.type a.offset)
  else if a.shader_input_type = GL_DOUBLE then
    .ok (.vertexArrayAttribLFormat va gidx a.size a.type a.offset)
  else
    .error (.mesh invalidInputTypeMsg)

/-- The inner attribute loop of `VertexArrayObject::createVertexArray`
    (Mesh.hpp lines 167-203): for each attribute an enable call, the format
    call selected by its shader input type, and an attrib-binding call, with
    `gidx` the running global attribute index and `lidx` the binding index
    of the enclosing layout.  Returns the calls issued and the exception, if
    any, that aborted the loop. -/
def attributesCalls (va : Nat) :
    Nat → Nat → List Attribute → List (GLCall F P) × Option GlowlExn
  | _, _, [] => ([], none)
  | gidx, lidx, a :: rest =>
    match attribFormatCall (F := F) (P := P) va gidx a with
    | .error e => ([.enableVertexArrayAttrib va gidx], some e)
    | .ok fmt =>
      let r := attributesCalls va (gidx + 1) lidx rest
      (.enableVertexArrayAttrib va gidx :: fmt ::
        .vertexArrayAttribBinding va gidx lidx :: r.1, r.2)

/-- The outer layout loop of `VertexArrayObject::createVertexArray`
    (Mesh.hpp lines 158-206): for each layout a vertex-buffer bind at its
    binding index followed by its attribute calls; the global attribute
    index advances by the number of attributes of each processed layout. -/
def layoutsCalls (va : Nat) :
    Nat → Nat → List VertexLayout → List (GLCall F P) × Option GlowlExn
  | _, _, [] => ([], none)
  | gidx, lidx, d :: rest =>
    let r := attributesCalls (F := F) (P := P) va gidx lidx d.attributes
    match r.2 with
    | some e =>
      (.vertexArrayVertexBuffer va lidx d.buffer_name d.buffer_start_offset
        d.stride :: r.1, some e)
    | none =>
      let r2 := layoutsCalls va (gidx + d.attributes.length) (lidx + 1) rest
      (.vertexArrayVertexBuffer va lidx d.buffer_name d.buffer_start_offset
        d.stride :: r.1 ++ r2.1, r2.2)

/-- Embeds `VertexArrayObject::createVertexArray` (Mesh.hpp lines 152-211):
    the create call, the layout loop starting at global attribute index 0
    and binding index 0, and the element-buffer bind issued iff
    `index_buffer_name` is non-zero. -/
def createVertexArrayTrace (va : Nat) (vertex_descriptor : List VertexLayout)
    (index_buffer_name : Nat) : List (GLCall F P) × Option GlowlExn :=
  let r := layoutsCalls (F := F) (P := P) va 0 0 vertex_descriptor
  match r.2 with
  | some e => (.createVertexArrays va :: r.1, some e)
  | none =>
    (.createVertexArrays va :: r.1 ++
      (if index_buffer_name ≠ 0 then
        [.vertexArrayElementBuffer va index_buffer_name]
      else []), none)

/-- State of a constructed `glowl::VertexArrayObject` (Mesh.hpp). -/
structure VertexArrayObject where
  m_va_handle : Nat
  m_vertex_descriptor : List VertexLayout
  m_primitive_type : Nat
  m_draw_items_count : Int
  m_index_type : Nat
  m_index_buffer_name : Nat
deriving DecidableEq, Repr

/-- Message of the MeshException thrown by `VertexArrayObject::checkError`
    (Mesh.hpp line 218). -/
def checkErrorMsg (err : Nat) : String :=
  "Mesh::Mesh - OpenGL error " ++ toString err

/-- Embeds the `VertexArrayObject` constructor (Mesh.hpp lines 135-150):
    member initialization, `createVertexArray()`, then `checkError()`.
    `err` is the value the driver returns from the single glGetError query;
    the query is only reached if `createVertexArray` did not throw. -/
def vaoConstruct (va : Nat) (vertex_descriptor : List VertexLayout)
    (draw_items_count : Int) (index_buffer_name index_data_type primitive_type : Nat)
    (err : Nat) : List (GLCall F P) × Except GlowlExn VertexArrayObject :=
  let r := createVertexArrayTrace (F := F) (P := P) va vertex_descriptor
    index_buffer_name
  match r.2 with
  | some e => (r.1, .error e)
  | none =>
    (r.1 ++ [.getError],
      if err ≠ GL_NO_ERROR then .error (.mesh (checkErrorMsg err))
      else .ok
        { m_va_handle := va, m_vertex_descriptor := vertex_descriptor,
          m_primitive_type := primitive_type,
          m_draw_items_count := draw_items_count,
          m_index_type := index_data_type,
          m_index_buffer_name := index_buffer_name })

/-- Embeds `VertexArrayObject::bind` (Mesh.hpp lines 66-69). -/
def vaoBind (obj : VertexArrayObject) : List (GLCall F P) :=
  [.bindVertexArray obj.m_va_handle]

/-- Embeds `VertexArrayObject::draw` (Mesh.hpp lines 76-86): bind, one draw
    call chosen by `m_index_buffer_name && m_draw_items_count`, unbind. -/
def vaoDraw (obj : VertexArrayObject) (instance_cnt : Int) :
    List (GLCall F P) :=
  [.bindVertexArray obj.m_va_handle] ++
  (if obj.m_index_buffer_name ≠ 0 ∧ obj.m_draw_items_count ≠ 0 then
    [.drawElementsInstanced obj.m_primitive_type obj.m_draw_items_count
      obj.m_index_type none instance_cnt]
  else
    [.drawArraysInstanced obj.m_primitive_type 0 obj.m_draw_items_count
      instance_cnt]) ++
  [.bindVertexArray 0]

/-- Embeds `VertexArrayObject::getVertexLayouts` (Mesh.hpp lines 88-91). -/
def getVertexLayouts (obj : VertexArrayObject) : List VertexLayout :=
  obj.m_vertex_descriptor

/-! Claim-side description of the vertex-array construction trace, written
    with explicit absolute indices as the claim states them. -/

/-- The format call the claim assigns to an attribute: float format for
    GL_FLOAT, long format for GL_DOUBLE, integer format otherwise (the
    claim only speaks of valid input types, for which the remaining case is
    GL_INT or GL_UNSIGNED_INT). -/
def specFormatCall (va gidx : Nat) (a : Attribute) : GLCall F P :=
  if a.shader_input_type = GL_FLOAT then
    .vertexArrayAttribFormat va gidx a.size a.type a.normalized a.offset
  else if a.shader_input_type = GL_DOUBLE then
    .vertexArrayAttribLFormat va gidx a.size a.type a.offset
  else
    .vertexArrayAttribIFormat va gidx a.size a.type a.offset

/-- The three calls the claim assigns to one attribute at global attribute
    index `gidx` inside the layout with binding index `lidx`. -/
def specAttribBlock (va lidx gidx : Nat) (a : Attribute) : List (GLCall F P) :=
  [.enableVertexArrayAttrib va gidx, specFormatCall va gidx a,
   .vertexArrayAttribBinding va gidx lidx]

/-- Number of attributes in the layouts preceding index `j`: the starting
    global attribute index of layout `j` when indices are assigned
    0, 1, 2, ... consecutively across all layouts. -/
def attributeCountBefore (descr : List VertexLayout) (j : Nat) : Nat :=
  ((descr.take j).map (fun d => d.attributes.length)).sum

/-- The calls the claim assigns to the layout at binding index `lidx` whose
    first attribute has global index `gidx`. -/
def specLayoutBlock (va lidx gidx : Nat) (d : VertexLayout) :
    List (GLCall F P) :=
  .vertexArrayVertexBuffer va lidx d.buffer_name d.buffer_start_offset
    d.stride ::
  (d.attributes.enum.map (fun p => specAttribBlock va lidx (gidx + p.1) p.2)).flatten

/-- The full call sequence the claim states for vertex-array construction:
    one create call, per layout `j` (in input order) its block at binding
    index `j` starting at global attribute index `attributeCountBefore`,
    and finally an element-buffer bind iff `index_buffer_name` is
    non-zero. -/
def specVertexArrayTrace (va : Nat) (descr : List VertexLayout)
    (index_buffer_name : Nat) : List (GLCall F P) :=
  .createVertexArrays va ::
  (descr.enum.map
    (fun p => specLayoutBlock va p.1 (attributeCountBefore descr p.1) p.2)).flatten ++
  (if index_buffer_name ≠ 0 then
    [.vertexArrayElementBuffer va index_buffer_name]
  else [])

/-- Intermediate recursive form of the claimed layout blocks, threading the
    running global attribute index exactly as the accumulator does. -/
def specLayoutsRec (va : Nat) :
    Nat → Nat → List VertexLayout → List (GLCall F P)
  | _, _, [] => []
  | gidx, lidx, d :: rest =>
    specLayoutBlock va lidx gidx d ++
      specLayoutsRec va (gidx + d.attributes.length) (lidx + 1) rest

/-- Concrete two-attribute layout used in witnesses. -/
def demoLayout1 : VertexLayout :=
  { stride := 16, buffer_start_offset := 0, buffer_name := 11,
    attributes :=
      [{ size := 2, type := GL_FLOAT, normalized := false, offset := 0,
         shader_input_type := GL_FLOAT },
       { size := 1, type := GL_INT, normalized := false, offset := 8,
         shader_input_type := GL_INT }] }

/-- Concrete second layout (different buffer) used in witnesses. -/
def demoLayout2 : VertexLayout :=
  { stride := 32, buffer_start_offset := 64, buffer_name := 12,
    attributes :=
      [{ size := 4, type := GL_UNSIGNED_BYTE, normalized := true, offset := 0,
         shader_input_type := GL_UNSIGNED_INT },
       { size := 3, type := GL_DOUBLE, normalized := false, offset := 8,
         shader_input_type := GL_DOUBLE }] }

/-- Concrete multi-layout vertex descriptor used in witnesses. -/
def demoDescriptor : List VertexLayout := [demoLayout1, demoLayout2]

/-- Layout whose attribute has shader input type GL_SHORT, which the switch
    in `createVertexArray` rejects. -/
def invalidAttrLayout : VertexLayout :=
  { stride := 12, buffer_start_offset := 0, buffer_name := 3,
    attributes := [{ size := 3, type := GL_FLOAT, normalized := false,
                     offset := 0, shader_input_type := GL_SHORT }] }

/-- Concrete vertex array object state used for the draw counterexample
    (no index buffer, zero draw items). -/
def demoVao : VertexArrayObject :=
  { m_va_handle := 1, m_vertex_descriptor := demoDescriptor,
    m_primitive_type := GL_TRIANGLES, m_draw_items_count := 0,
    m_index_type := GL_UNSIGNED_INT, m_index_buffer_name := 0 }

/-! Section: GLSLProgram.hpp -/

/-- Driver-side behaviour observed by GLSLProgram: whether a shader of a
    given type and source compiles, its info log, whether the program links,
    the link info log, the handle returned by the i-th glCreateShader call,
    and the uniform location table. -/
structure GLDriver where
  compileOk : Nat → String → Bool
  compileInfoLog : Nat → String → String
  linkOk : Bool
  linkInfoLog : String
  shaderHandle : Nat → Nat
  uniformLoc : Nat → String → Int

/-- State of a constructed `glowl::GLSLProgram`. -/
structure GLSLProgram where
  m_handle : Nat
  m_debug_label : String
deriving DecidableEq, Repr

/-- Embeds `GLSLProgram::compileShaderFromString` (GLSLProgram.hpp lines
    177-221): empty-source check, shader creation, source upload, compile,
    status query; on failure the info log is fetched (if non-empty), the
    shader deleted and a GLSLProgramException thrown; on success the shader
    is attached and flagged for deletion. -/
def compileShaderFromString (drv : GLDriver) (program shader : Nat)
    (shaderType : Nat) (source : String) :
    List (GLCall F P) × Option GlowlExn :=
  if source = "" then ([], some (.glslProgram "No shader source."))
  else
    let base : List (GLCall F P) :=
      [.createShader shaderType, .shaderSource shader source,
       .compileShader shader, .getShaderiv shader GL_COMPILE_STATUS]
    if drv.compileOk shaderType source then
      (base ++ [.attachShader program shader, .deleteShader shader], none)
    else
      let log := drv.compileInfoLog shaderType source
      (base ++
        (.getShaderiv shader GL_INFO_LOG_LENGTH ::
          (if log.length > 0 then
            [.getShaderInfoLog shader (log.length : Int)]
          else [])) ++
        [.deleteShader shader],
       some (.glslProgram (if log.length > 0 then log else "")))

/-- The shader loop of the GLSLProgram constructor (GLSLProgram.hpp lines
    159-162); `i` counts the glCreateShader calls made so far, so the i-th
    created shader has handle `drv.shaderHandle i`. -/
def compileShaderList (drv : GLDriver) (program : Nat) :
    Nat → List (Nat × String) → List (GLCall F P) × Option GlowlExn
  | _, [] => ([], none)
  | i, s :: rest =>
    let r := compileShaderFromString (F := F) (P := P) drv program
      (drv.shaderHandle i) s.1 s.2
    match r.2 with
    | some e => (r.1, some e)
    | none =>
      let r2 := compileShaderList drv program (i + 1) rest
      (r.1 ++ r2.1, r2.2)

/-- Embeds `GLSLProgram::link` (GLSLProgram.hpp lines 223-244): link, status
    query; on failure the info log is fetched (if non-empty) and a
    GLSLProgramException thrown. -/
def linkProgramCalls (drv : GLDriver) (program : Nat) :
    List (GLCall F P) × Option GlowlExn :=
  let base : List (GLCall F P) :=
    [.linkProgram program, .getProgramiv program GL_LINK_STATUS]
  if drv.linkOk then (base, none)
  else
    (base ++
      (.getProgramiv program GL_INFO_LOG_LENGTH ::
        (if drv.linkInfoLog.length > 0 then
          [.getProgramInfoLog program (drv.linkInfoLog.length : Int)]
        else [])),
     some (.glslProgram (if drv.linkInfoLog.length > 0 then drv.linkInfoLog
       else "")))

/-- Embeds the `GLSLProgram` constructor (GLSLProgram.hpp lines 153-170):
    glCreateProgram (returning `program`), the shader loop, link, and a
    catch-all that deletes the program and rethrows. -/
def glslProgramConstruct (drv : GLDriver) (program : Nat)
    (shaderList : List (Nat × String)) :
    List (GLCall F P) × Except GlowlExn GLSLProgram :=
  let r := compileShaderList (F := F) (P := P) drv program 0 shaderList
  match r.2 with
  | some e => (.createProgram :: r.1 ++ [.deleteProgram program], .error e)
  | none =>
    let rl := linkProgramCalls (F := F) (P := P) drv program
    match rl.2 with
    | some e =>
      (.createProgram :: r.1 ++ rl.1 ++ [.deleteProgram program], .error e)
    | none =>
      (.createProgram :: r.1 ++ rl.1,
       .ok { m_handle := program, m_debug_label := "" })

/-- Embeds `GLSLProgram::use` (GLSLProgram.hpp lines 246-249). -/
def glslUse (p : GLSLProgram) : List (GLCall F P) :=
  [.useProgram p.m_handle]

/-- The location `GLSLProgram::getUniformLocation` passes to the uniform
    upload calls (GLSLProgram.hpp lines 371-374; the GLint-GLuint-GLint
    round trip in the C++ signatures is the identity). -/
def resolveUniformLocation (drv : GLDriver) (p : GLSLProgram)
    (name : String) : Int :=
  drv.uniformLoc p.m_handle name

/-- Embeds `GLSLProgram::setUniform(name, GLfloat)` (lines 266-269). -/
def setUniform1f (drv : GLDriver) (p : GLSLProgram) (name : String)
    (v0 : F) : List (GLCall F P) :=
  [.getUniformLocation p.m_handle name,
   .uniform1f (resolveUniformLocation drv p name) v0]

/-- Embeds `GLSLProgram::setUniform(name, GLfloat, GLfloat)` (271-274). -/
def setUniform2f (drv : GLDriver) (p : GLSLProgram) (name : String)
    (v0 v1 : F) : List (GLCall F P) :=
  [.getUniformLocation p.m_handle name,
   .uniform2f (resolveUniformLocation drv p name) v0 v1]

/-- Embeds `GLSLProgram::setUniform` for three GLfloat (276-279). -/
def setUniform3f (drv : GLDriver) (p : GLSLProgram) (name : String)
    (v0 v1 v2 : F) : List (GLCall F P) :=
  [.getUniformLocation p.m_handle name,
   .uniform3f (resolveUniformLocation drv p name) v0 v1 v2]

/-- Embeds `GLSLProgram::setUniform` for four GLfloat (281-284). -/
def setUniform4f (drv : GLDriver) (p : GLSLProgram) (name : String)
    (v0 v1 v2 v3 : F) : List (GLCall F P) :=
  [.getUniformLocation p.m_handle name,
   .uniform4f (resolveUniformLocation drv p name) v0 v1 v2 v3]

/-- Embeds `GLSLProgram::setUniform(name, GLint)` (286-289). -/
def setUniform1i (drv : GLDriver) (p : GLSLProgram) (name : String)
    (v0 : Int) : List (GLCall F P) :=
  [.getUniformLocation p.m_handle name,
   .uniform1i (resolveUniformLocation drv p name) v0]

/-- Embeds `GLSLProgram::setUniform` for two GLint (291-294). -/
def setUniform2i (drv : GLDriver) (p : GLSLProgram) (name : String)
    (v0 v1 : Int) : List (GLCall F P) :=
  [.getUniformLocation p.m_handle name,
   .uniform2i (resolveUniformLocation drv p name) v0 v1]

/-- Embeds `GLSLProgram::setUniform` for three GLint (296-299). -/
def setUniform3i (drv : GLDriver) (p : GLSLProgram) (name : String)
    (v0 v1 v2 : Int) : List (GLCall F P) :=
  [.getUniformLocation p.m_handle name,
   .uniform3i (resolveUniformLocation drv p name) v0 v1 v2]

/-- Embeds `GLSLProgram::setUniform` for four GLint (301-304). -/
def setUniform4i (drv : GLDriver) (p : GLSLProgram) (name : String)
    (v0 v1 v2 v3 : Int) : List (GLCall F P) :=
  [.getUniformLocation p.m_handle name,
   .uniform4i (resolveUniformLocation drv p name) v0 v1 v2 v3]

/-- Embeds `GLSLProgram::setUniform(name, GLuint)` (306-309). -/
def setUniform1ui (drv : GLDriver) (p : GLSLProgram) (name : String)
    (v0 : Nat) : List (GLCall F P) :=
  [.getUniformLocation p.m_handle name,
   .uniform1ui (resolveUniformLocation drv p name) v0]

/-- Embeds `GLSLProgram::setUniform` for two GLuint (311-314). -/
def setUniform2ui (drv : GLDriver) (p : GLSLProgram) (name : String)
    (v0 v1 : Nat) : List (GLCall F P) :=
  [.getUniformLocation p.m_handle name,
   .uniform2ui (resolveUniformLocation drv p name) v0 v1]

/-- Embeds `GLSLProgram::setUniform` for three GLuint (316-319). -/
def setUniform3ui (drv : GLDriver) (p : GLSLProgram) (name : String)
    (v0 v1 v2 : Nat) : List (GLCall F P) :=
  [.getUniformLocation p.m_handle name,
   .uniform3ui (resolveUniformLocation drv p name) v0 v1 v2]

/-- Embeds `GLSLProgram::setUniform` for four GLuint (321-324). -/
def setUniform4ui (drv : GLDriver) (p : GLSLProgram) (name : String)
    (v0 v1 v2 v3 : Nat) : List (GLCall F P) :=
  [.getUniformLocation p.m_handle name,
   .uniform4ui (resolveUniformLocation drv p name) v0 v1 v2 v3]

/-- Embeds `GLSLProgram::setUniform(name, glm::vec2)` (326-329). -/
def setUniformVec2 (drv : GLDriver) (p : GLSLProgram) (name : String)
    (v : Vec2 F) : List (GLCall F P) :=
  [.getUniformLocation p.m_handle name,
   .uniform2fv (resolveUniformLocation drv p name) 1 v]

/-- Embeds `GLSLProgram::setUniform(name, glm::vec3)` (331-334). -/
def setUniformVec3 (drv : GLDriver) (p : GLSLProgram) (name : String)
    (v : Vec3 F) : List (GLCall F P) :=
  [.getUniformLocation p.m_handle name,
   .uniform3fv (resolveUniformLocation drv p name) 1 v]

/-- Embeds `GLSLProgram::setUniform(name, glm::vec4)` (336-339). -/
def setUniformVec4 (drv : GLDriver) (p : GLSLProgram) (name : String)
    (v : Vec4 F) : List (GLCall F P) :=
  [.getUniformLocation p.m_handle name,
   .uniform4fv (resolveUniformLocation drv p name) 1 v]

/-- Embeds `GLSLProgram::setUniform(name, glm::ivec2)` (341-344). -/
def setUniformIVec2 (drv : GLDriver) (p : GLSLProgram) (name : String)
    (v : Vec2 Int) : List (GLCall F P) :=
  [.getUniformLocation p.m_handle name,
   .uniform2iv (resolveUniformLocation drv p name) 1 v]

/-- Embeds `GLSLProgram::setUniform(name, glm::ivec3)` (346-349). -/
def setUniformIVec3 (drv : GLDriver) (p : GLSLProgram) (name : String)
    (v : Vec3 Int) : List (GLCall F P) :=
  [.getUniformLocation p.m_handle name,
   .uniform3iv (resolveUniformLocation drv p name) 1 v]

/-- Embeds `GLSLProgram::setUniform(name, glm::ivec4)` (351-354). -/
def setUniformIVec4 (drv : GLDriver) (p : GLSLProgram) (name : String)
    (v : Vec4 Int) : List (GLCall F P) :=
  [.getUniformLocation p.m_handle name,
   .uniform4iv (resolveUniformLocation drv p name) 1 v]

/-- Embeds `GLSLProgram::setUniform(name, glm::mat2)` (356-359). -/
def setUniformMat2 (drv : GLDriver) (p : GLSLProgram) (name : String)
    (m : Mat2 F) : List (GLCall F P) :=
  [.getUniformLocation p.m_handle name,
   .uniformMatrix2fv (resolveUniformLocation drv p name) 1 false m]

/-- Embeds `GLSLProgram::setUniform(name, glm::mat3)` (361-364). -/
def setUniformMat3 (drv : GLDriver) (p : GLSLProgram) (name : String)
    (m : Mat3 F) : List (GLCall F P) :=
  [.getUniformLocation p.m_handle name,
   .uniformMatrix3fv (resolveUniformLocation drv p name) 1 false m]

/-- Embeds `GLSLProgram::setUniform(name, glm::mat4)` (366-369). -/
def setUniformMat4 (drv : GLDriver) (p : GLSLProgram) (name : String)
    (m : Mat4 F) : List (GLCall F P) :=
  [.getUniformLocation p.m_handle name,
   .uniformMatrix4fv (resolveUniformLocation drv p name) 1 false m]

/-! Section: Texture.hpp / Texture2DArray -/

/-- Embeds the `TextureLayout` struct (Texture.hpp): `internal_format` is
    GLint, `width`, `height`, `depth` are int, `format` and `type` GLenum,
    `levels` GLsizei, plus the texture parameter lists. -/
structure TextureLayout (F : Type) where
  internal_format : Int
  width : Int
  height : Int
  depth : Int
  format : Nat
  type : Nat
  levels : Int
  int_parameters : List (Nat × Int) := []
  float_parameters : List (Nat × F) := []
deriving DecidableEq, Repr

/-- State of a constructed `Texture2DArray`: the `Texture` base members
    (`m_internal_format` is the GLenum member initialized from the GLint
    layout field) together with the unsigned width, height and layer
    counts. -/
structure Texture2DArray where
  m_id : String
  m_name : Nat
  m_texture_handle : Nat
  m_internal_format : Nat
  m_format : Nat
  m_type : Nat
  m_levels : Int
  m_width : Nat
  m_height : Nat
  m_layers : Nat
deriving DecidableEq, Repr

/-- The level count `Texture2DArray`'s constructor passes to glTexStorage3D
    (Texture2DArray.cpp lines 22-24):
    `std::min(layout.levels, 1 + floor(log2(max(m_width, m_height))))`.
    For `max m_width m_height ≥ 1` the C++ floor(log2) equals `Nat.log2`
    (for 0 the C++ expression is undefined, so theorems assume ≥ 1). -/
def texStorageLevels (levels : Int) (m_width m_height : Nat) : Int :=
  min levels (1 + (Nat.log2 (max m_width m_height) : Int))

/-- Embeds the `Texture2DArray` constructor (Texture2DArray.cpp lines 6-44):
    base-member initialization, texture generation and binding, the texture
    parameter loops, storage allocation with the clamped level count, the
    optional sub-image upload (iff `data` is non-null) and mipmap
    generation, handle retrieval, unbinding, and the single glGetError check
    whose non-success value is printed to std::cerr.  `texName` is the name
    glGenTextures returns and `bindlessHandle` the value of
    glGetTextureHandleARB; `err` is the glGetError result.  Returns the
    calls, the constructed object, and the std::cerr lines. -/
def texture2DArrayConstruct (id : String) (layout : TextureLayout F)
    (data : Option P) (generateMipmap : Bool) (texName bindlessHandle : Nat)
    (err : Nat) : List (GLCall F P) × Texture2DArray × List String :=
  let m_width := uintOfInt layout.width
  let m_height := uintOfInt layout.height
  let m_layers := uintOfInt layout.depth
  let m_internal_format := uintOfInt layout.internal_format
  let levels := texStorageLevels layout.levels m_width m_height
  ([.genTextures 1, .bindTexture GL_TEXTURE_2D_ARRAY texName] ++
    layout.int_parameters.map
      (fun q => .texParameteri GL_TEXTURE_2D_ARRAY q.1 q.2) ++
    layout.float_parameters.map
      (fun q => .texParameterf GL_TEXTURE_2D_ARRAY q.1 q.2) ++
    [.texStorage3D GL_TEXTURE_2D_ARRAY levels m_internal_format
      (intOfUint m_width) (intOfUint m_height) (intOfUint m_layers)] ++
    (match data with
     | some d =>
       [.texSubImage3D GL_TEXTURE_2D_ARRAY 0 0 0 0 (intOfUint m_width)
         (intOfUint m_height) (intOfUint m_layers) layout.format layout.type
         (some d)]
     | none => []) ++
    (if generateMipmap then [.generateMipmap GL_TEXTURE_2D_ARRAY] else []) ++
    [.getTextureHandleARB texName, .bindTexture GL_TEXTURE_2D_ARRAY 0,
     .getError],
   { m_id := id, m_name := texName, m_texture_handle := bindlessHandle,
     m_internal_format := m_internal_format, m_format := layout.format,
     m_type := layout.type, m_levels := layout.levels,
     m_width := m_width, m_height := m_height, m_layers := m_layers },
   if err ≠ GL_NO_ERROR then
     ["GL error during array texture (id: " ++ id ++ ") creation: " ++
       toString err]
   else [])

/-- Embeds `Texture2DArray::getTextureLayout` (Texture2DArray.cpp lines
    58-61): `TextureLayout(m_internal_format, m_width, m_height, m_layers,
    m_format, m_type, m_levels)` with the unsigned members converted back to
    the int constructor parameters. -/
def getTextureLayout (t : Texture2DArray) : TextureLayout F :=
  { internal_format := intOfUint t.m_internal_format,
    width := intOfUint t.m_width, height := intOfUint t.m_height,
    depth := intOfUint t.m_layers, format := t.m_format, type := t.m_type,
    levels := t.m_levels, int_parameters := [], float_parameters := [] }

/-- First glTexStorage3D level argument in a trace, if any. -/
def texStorage3DLevelsOf : GLCall F P → Option Int
  | .texStorage3D _ levels _ _ _ _ => some levels
  | _ => none

/-- Concrete layout exhibiting the level clamp: 10 requested levels on a
    1 x 1 x 1 texture. -/
def clampDemoLayout : TextureLayout Int :=
  { internal_format := 0x8058, width := 1, height := 1, depth := 1,
    format := 0x1908, type := GL_UNSIGNED_BYTE, levels := 10 }

/-! Section: ShaderStorageBufferObject.cpp -/

/-- State of a `ShaderStorageBufferObject`. -/
structure ShaderStorageBufferObject where
  m_handle : Nat
  m_size : Nat
  m_written_size : Nat
deriving DecidableEq, Repr

/-- Embeds the `ShaderStorageBufferObject` constructor
    (ShaderStorageBufferObject.cpp lines 10-23); `handle` is the name
    glGenBuffers returns. -/
def ssboConstruct (handle size : Nat) (data : Option P) :
    ShaderStorageBufferObject × List (GLCall F P) :=
  ({ m_handle := handle, m_size := size, m_written_size := 0 },
   [.genBuffers 1, .bindBuffer GL_SHADER_STORAGE_BUFFER handle,
    .bufferData GL_SHADER_STORAGE_BUFFER size data GL_DYNAMIC_DRAW,
    .bindBuffer GL_SHADER_STORAGE_BUFFER 0])

/-- Embeds `ShaderStorageBufferObject::reload` (ShaderStorageBufferObject.cpp
    lines 30-42): `m_size = size` first, then bind, buffer upload, unbind,
    and the single glGetError check whose non-success value is printed to
    std::cerr.  The `index` parameter is accepted and unused, as in the
    source.  `err` is the glGetError result. -/
def ssboReload (obj : ShaderStorageBufferObject) (size : Nat) (index : Nat)
    (data : Option P) (err : Nat) :
    ShaderStorageBufferObject × List (GLCall F P) × List String :=
  ({ obj with m_size := size },
   [.bindBuffer GL_SHADER_STORAGE_BUFFER obj.m_handle,
    .bufferData GL_SHADER_STORAGE_BUFFER size data GL_DYNAMIC_DRAW,
    .bindBuffer GL_SHADER_STORAGE_BUFFER 0, .getError],
   if err ≠ GL_NO_ERROR then ["Error - SSBO - reload: " ++ toString err]
   else [])

/-- Embeds `ShaderStorageBufferObject::bind()` (lines 44-47). -/
def ssboBind (obj : ShaderStorageBufferObject) : List (GLCall F P) :=
  [.bindBuffer GL_SHADER_STORAGE_BUFFER obj.m_handle]

/-- Embeds `ShaderStorageBufferObject::bind(GLuint)` (lines 49-52). -/
def ssboBindBase (obj : ShaderStorageBufferObject) (index : Nat) :
    List (GLCall F P) :=
  [.bindBufferBase GL_SHADER_STORAGE_BUFFER index obj.m_handle]

/-- Embeds `ShaderStorageBufferObject::getSize` (lines 54-57). -/
def getSize (obj : ShaderStorageBufferObject) : Nat :=
  obj.m_size

/-- The (pname, value) argument pair of a glTexParameteri call, if any. -/
def texParameteriOf : GLCall F P → Option (Nat × Int)
  | .texParameteri _ pname param => some (pname, param)
  | _ => none

/-- The (pname, value) argument pair of a glTexParameterf call, if any. -/
def texParameterfOf : GLCall F P → Option (Nat × F)
  | .texParameterf _ pname param => some (pname, param)
  | _ => none

/-- The (format, type, pixels) arguments of a glTexSubImage3D call, if
    any. -/
def texSubImageFormatTypeOf : GLCall F P → Option (Nat × Nat × Option P)
  | .texSubImage3D _ _ _ _ _ _ _ _ format ty pixels => some (format, ty, pixels)
  | _ => none

/-- Concrete driver environment used in witnesses: every shader compiles,
    the program links, the i-th created shader has handle i + 10, and every
    uniform resolves to location 3. -/
def demoDriver : GLDriver :=
  { compileOk := fun _ _ => true, compileInfoLog := fun _ _ => "",
    linkOk := true, linkInfoLog := "", shaderHandle := fun i => i + 10,
    uniformLoc := fun _ _ => 3 }

/-- Driver environment in which every shader fails to compile with the
    given log. -/
def failCompileDriver : GLDriver :=
  { compileOk := fun _ _ => false,
    compileInfoLog := fun _ _ => "syntax error", linkOk := true,
    linkInfoLog := "", shaderHandle := fun i => i + 10,
    uniformLoc := fun _ _ => 3 }

theorem intOfUint_uintOfInt (i : Int) (h1 : -(2 ^ 31) ≤ i) (h2 : i < 2 ^ 31) :
    intOfUint (uintOfInt i) = i := by
  unfold intOfUint uintOfInt
  omega

theorem foldl_and_eq_all {α : Type} (f : α → Bool) :
    ∀ (l : List α) (b : Bool),
      l.foldl (fun acc x => acc && f x) b = (b && l.all f) := by
  intro l
  induction l with
  | nil => intro b; simp
  | cons x xs ih =>
      intro b
      simp only [List.foldl_cons, List.all_cons, ih, Bool.and_assoc]

theorem attributeEq_iff (lhs rhs : Attribute) :
    attributeEq lhs rhs = true ↔
      lhs.size = rhs.size ∧ lhs.type = rhs.type ∧
      lhs.normalized = rhs.normalized ∧ lhs.offset = rhs.offset ∧
      lhs.shader_input_type = rhs.shader_input_type := by
  simp only [attributeEq, Bool.and_eq_true, beq_iff_eq]
  tauto

theorem computeByteSize_le (v : Nat) : computeByteSize v ≤ 8 := by
  unfold computeByteSize
  split <;> norm_num

theorem computeByteSize_unrecognized (v : Nat) (hv : v ∉ recognizedGLTypes) :
    computeByteSize v = 0 := by
  simp only [recognizedGLTypes, GL_BYTE, GL_SHORT, GL_INT, GL_FIXED, GL_FLOAT,
    GL_HALF_FLOAT, GL_DOUBLE, GL_UNSIGNED_BYTE, GL_UNSIGNED_SHORT,
    GL_UNSIGNED_INT, GL_INT_2_10_10_10_REV, GL_UNSIGNED_INT_2_10_10_10_REV,
    GL_UNSIGNED_INT_10F_11F_11F_REV, List.mem_cons, List.not_mem_nil,
    or_false, not_or] at hv
  unfold computeByteSize
  split
  all_goals first | rfl | (exfalso; omega)

/-- Claim C8: `computeByteSize` maps the thirteen recognized GL type enums to
    their documented byte sizes (1 for GL_BYTE and GL_UNSIGNED_BYTE; 2 for
    GL_SHORT, GL_UNSIGNED_SHORT and GL_HALF_FLOAT; 4 for GL_INT,
    GL_UNSIGNED_INT, GL_FIXED, GL_FLOAT and the three packed formats; 8 for
    GL_DOUBLE) and returns 0 for every other input; consequently
    `computeAttributeByteSize` equals `computeByteSize` of the attribute's
    type times its size (for sizes in GLint range), and is 0 whenever the
    type is unrecognized. -/
theorem claim_C8 :
    (computeByteSize GL_BYTE = 1 ∧ computeByteSize GL_UNSIGNED_BYTE = 1) ∧
    (computeByteSize GL_SHORT = 2 ∧ computeByteSize GL_UNSIGNED_SHORT = 2 ∧
      computeByteSize GL_HALF_FLOAT = 2) ∧
    (computeByteSize GL_INT = 4 ∧ computeByteSize GL_UNSIGNED_INT = 4 ∧
      computeByteSize GL_FIXED = 4 ∧ computeByteSize GL_FLOAT = 4 ∧
      computeByteSize GL_INT_2_10_10_10_REV = 4 ∧
      computeByteSize GL_UNSIGNED_INT_2_10_10_10_REV = 4 ∧
      computeByteSize GL_UNSIGNED_INT_10F_11F_11F_REV = 4) ∧
    computeByteSize GL_DOUBLE = 8 ∧
    (∀ v : Nat, v ∉ recognizedGLTypes → computeByteSize v = 0) ∧
    (∀ a : Attribute, 0 ≤ a.size → a.size < 2 ^ 31 →
      computeAttributeByteSize a = computeByteSize a.type * a.size.toNat) ∧
    (∀ a : Attribute, a.type ∉ recognizedGLTypes →
      computeAttributeByteSize a = 0) := by
  refine ⟨by decide, by decide, by decide, by decide,
    computeByteSize_unrecognized, ?_, ?_⟩
  · intro a h0 hlt
    unfold computeAttributeByteSize sizetOfInt
    have hmod : (a.size % (2 ^ 64 : Int)).toNat = a.size.toNat := by omega
    rw [hmod]
    have hb : computeByteSize a.type ≤ 8 := computeByteSize_le a.type
    have hs : a.size.toNat ≤ 2 ^ 31 := by omega
    have hprod : computeByteSize a.type * a.size.toNat < 2 ^ 64 := by
      calc computeByteSize a.type * a.size.toNat ≤ 8 * 2 ^ 31 :=
            Nat.mul_le_mul hb hs
        _ < 2 ^ 64 := by norm_num
    exact Nat.mod_eq_of_lt hprod
  · intro a ha
    unfold computeAttributeByteSize
    rw [computeByteSize_unrecognized a.type ha]
    simp

/-- Witness for claim C8: concrete evaluations discharging the hypotheses. -/
theorem claim_C8_witness :
    computeByteSize 0x1407 = 0 ∧
    computeAttributeByteSize
      { size := 3, type := GL_FLOAT, normalized := false, offset := 0,
        shader_input_type := GL_FLOAT } =
      computeByteSize GL_FLOAT * 3 ∧
    computeAttributeByteSize
      { size := 3, type := 0x1407, normalized := false, offset := 0,
        shader_input_type := GL_FLOAT } = 0 :=
  ⟨claim_C8.2.2.2.2.1 0x1407 (by decide),
   claim_C8.2.2.2.2.2.1
     { size := 3, type := GL_FLOAT, normalized := false, offset := 0,
       shader_input_type := GL_FLOAT } (by decide) (by decide),
   claim_C8.2.2.2.2.2.2
     { size := 3, type := 0x1407, normalized := false, offset := 0,
       shader_input_type := GL_FLOAT } (by decide)⟩

/-- Claim C9: `operator==` on `VertexLayout` returns true iff the strides
    agree, the attribute counts agree, and every corresponding pair of
    attributes agrees on size, type, normalized, offset and
    shader_input_type; the buffer_name and buffer_start_offset fields never
    influence the result, and two layouts with different buffers and
    different start offsets can compare equal. -/
theorem claim_C9 :
    (∀ lhs rhs : VertexLayout,
      vertexLayoutEq lhs rhs = true ↔
        lhs.stride = rhs.stride ∧
        lhs.attributes.length = rhs.attributes.length ∧
        ∀ p ∈ lhs.attributes.zip rhs.attributes,
          p.1.size = p.2.size ∧ p.1.type = p.2.type ∧
          p.1.normalized = p.2.normalized ∧ p.1.offset = p.2.offset ∧
          p.1.shader_input_type = p.2.shader_input_type) ∧
    (∀ (lhs rhs : VertexLayout) (bn1 bn2 : Nat) (bo1 bo2 : Int),
      vertexLayoutEq { lhs with buffer_name := bn1, buffer_start_offset := bo1 }
        { rhs with buffer_name := bn2, buffer_start_offset := bo2 } =
      vertexLayoutEq lhs rhs) ∧
    (vertexLayoutEq bufferedLayoutA bufferedLayoutB = true ∧
      bufferedLayoutA.buffer_name ≠ bufferedLayoutB.buffer_name ∧
      bufferedLayoutA.buffer_start_offset ≠ bufferedLayoutB.buffer_start_offset) := by
  refine ⟨?_, fun lhs rhs bn1 bn2 bo1 bo2 => rfl, by decide, by decide, by decide⟩
  intro lhs rhs
  unfold vertexLayoutEq
  split
  case isTrue h =>
    rw [foldl_and_eq_all]
    simp only [Bool.true_and, Bool.and_eq_true, beq_iff_eq, List.all_eq_true]
    constructor
    · rintro ⟨hs, hall⟩
      exact ⟨hs, h, fun p hp => (attributeEq_iff p.1 p.2).mp (hall p hp)⟩
    · rintro ⟨hs, _, hall⟩
      exact ⟨hs, fun p hp => (attributeEq_iff p.1 p.2).mpr (hall p hp)⟩
  case isFalse h =>
    constructor
    · intro h'
      exact absurd h' (by simp)
    · rintro ⟨_, hlen, _⟩
      exact absurd hlen h

/-- Witness for claim C9: the equality predicate evaluated through the main
    theorem at concrete layouts. -/
theorem claim_C9_witness :
    vertexLayoutEq bufferedLayoutA bufferedLayoutB = true :=
  (claim_C9.1 bufferedLayoutA bufferedLayoutB).mpr
    ⟨by decide, by decide, by decide⟩

/-! Section: Vertex array construction trace -/

theorem map_enumFrom_add {α β : Type} (g : Nat → α → β) :
    ∀ (l : List α) (m n : Nat),
      (List.enumFrom n l).map (fun p => g (m + p.1) p.2) =
        (List.enumFrom (m + n) l).map (fun p => g p.1 p.2) := by
  intro l
  induction l with
  | nil => intro m n; rfl
  | cons a t ih =>
      intro m n
      simp only [List.enumFrom, List.map_cons]
      rw [ih m (n + 1), ← Nat.add_assoc]

theorem map_enum_add {α β : Type} (g : Nat → α → β) (l : List α) (m : Nat) :
    l.enum.map (fun p => g (m + p.1) p.2) =
      (List.enumFrom m l).map (fun p => g p.1 p.2) := by
  have := map_enumFrom_add g l m 0
  simpa [List.enum] using this

theorem attributeCountBefore_zero (descr : List VertexLayout) :
    attributeCountBefore descr 0 = 0 := by
  simp [attributeCountBefore]

theorem attributeCountBefore_cons_succ (d : VertexLayout)
    (rest : List VertexLayout) (k : Nat) :
    attributeCountBefore (d :: rest) (k + 1) =
      d.attributes.length + attributeCountBefore rest k := by
  simp [attributeCountBefore, List.take_succ_cons]

theorem attribFormatCall_valid (va gidx : Nat) (a : Attribute)
    (h : validInputType a) :
    attribFormatCall (F := F) (P := P) va gidx a =
      .ok (specFormatCall va gidx a) := by
  rcases h with h | h | h | h <;>
    simp [attribFormatCall, specFormatCall, h, GL_FLOAT, GL_INT,
      GL_UNSIGNED_INT, GL_DOUBLE]

theorem attribFormatCall_invalid (va gidx : Nat) (a : Attribute)
    (h : ¬ validInputType a) :
    attribFormatCall (F := F) (P := P) va gidx a =
      .error (.mesh invalidInputTypeMsg) := by
  unfold validInputType at h
  push_neg at h
  obtain ⟨h1, h2, h3, h4⟩ := h
  simp [attribFormatCall, h1, h2, h3, h4]

theorem attributesCalls_eq_spec (va lidx : Nat) :
    ∀ (attrs : List Attribute) (gidx : Nat),
      (∀ a ∈ attrs, validInputType a) →
      attributesCalls (F := F) (P := P) va gidx lidx attrs =
        (((List.enumFrom gidx attrs).map
          (fun p => specAttribBlock va lidx p.1 p.2)).flatten, none)
  | [], gidx, _ => by simp [attributesCalls, List.enumFrom]
  | a :: rest, gidx, h => by
      have ha : validInputType a := h a (List.mem_cons_self a rest)
      have hrest := attributesCalls_eq_spec va lidx rest
        (gidx + 1) (fun x hx => h x (List.mem_cons_of_mem a hx))
      rw [attributesCalls, attribFormatCall_valid va gidx a ha]
      simp only [hrest, List.enumFrom, List.map_cons, List.flatten_cons,
        specAttribBlock]
      rfl

theorem attributesCalls_snd_invalid (va lidx : Nat) :
    ∀ (attrs : List Attribute) (gidx : Nat),
      ¬ (∀ a ∈ attrs, validInputType a) →
      (attributesCalls (F := F) (P := P) va gidx lidx attrs).2 =
        some (.mesh invalidInputTypeMsg)
  | [], _, h => absurd (by simp) h
  | a :: rest, gidx, h => by
      by_cases ha : validInputType a
      · have hrest : ¬ ∀ x ∈ rest, validInputType x := fun hr =>
          h (List.forall_mem_cons.mpr ⟨ha, hr⟩)
        rw [attributesCalls, attribFormatCall_valid va gidx a ha]
        exact attributesCalls_snd_invalid va lidx rest (gidx + 1) hrest
      · rw [attributesCalls, attribFormatCall_invalid va gidx a ha]

theorem layoutsCalls_eq_spec (va : Nat) :
    ∀ (descr : List VertexLayout) (gidx lidx : Nat),
      (∀ d ∈ descr, ∀ a ∈ d.attributes, validInputType a) →
      layoutsCalls (F := F) (P := P) va gidx lidx descr =
        (specLayoutsRec va gidx lidx descr, none)
  | [], gidx, lidx, _ => by simp [layoutsCalls, specLayoutsRec]
  | d :: rest, gidx, lidx, h => by
      have hd : ∀ a ∈ d.attributes, validInputType a :=
        h d (List.mem_cons_self d rest)
      have hattrs := attributesCalls_eq_spec (F := F) (P := P) va lidx
        d.attributes gidx hd
      have hrest := layoutsCalls_eq_spec va rest
        (gidx + d.attributes.length) (lidx + 1)
        (fun x hx => h x (List.mem_cons_of_mem d hx))
      rw [layoutsCalls]
      simp only [hattrs, hrest, specLayoutsRec, specLayoutBlock]
      rw [map_enum_add (fun j a => specAttribBlock (F := F) (P := P) va lidx j a)
        d.attributes gidx]

theorem specLayoutsRec_eq_enum (va : Nat) :
    ∀ (descr : List VertexLayout) (gidx lidx : Nat),
      specLayoutsRec (F := F) (P := P) va gidx lidx descr =
        (descr.enum.map (fun p =>
          specLayoutBlock va (lidx + p.1)
            (gidx + attributeCountBefore descr p.1) p.2)).flatten
  | [], gidx, lidx => by simp [specLayoutsRec, List.enum]
  | d :: rest, gidx, lidx => by
      rw [specLayoutsRec, specLayoutsRec_eq_enum va rest
        (gidx + d.attributes.length) (lidx + 1)]
      simp only [List.enum_cons, List.map_cons, List.flatten_cons,
        attributeCountBefore_zero, Nat.add_zero]
      congr 1
      rw [← map_enum_add (fun j x =>
        specLayoutBlock (F := F) (P := P) va (lidx + j)
          (gidx + attributeCountBefore (d :: rest) j) x) rest 1]
      congr 1
      apply List.map_congr_left
      intro p _
      rw [show (1 : Nat) + p.1 = p.1 + 1 from Nat.add_comm 1 p.1,
        attributeCountBefore_cons_succ]
      congr 1 <;> omega

/-- Claim C1: for every vertex descriptor whose attributes all carry a valid
    shader input type, `createVertexArray` issues exactly the claimed fixed
    sequence: one create call; per layout `j` in input order a vertex-buffer
    bind at binding index `j` with that layout's buffer_name,
    buffer_start_offset and stride, then per attribute an enable call, the
    format call selected by its shader_input_type, and an attrib-binding
    call to binding index `j`, with global attribute indices assigned
    0, 1, 2, ... consecutively across all layouts; and finally an
    element-buffer bind iff index_buffer_name is non-zero. -/
theorem claim_C1 (va : Nat) (descr : List VertexLayout)
    (index_buffer_name : Nat)
    (h : ∀ d ∈ descr, ∀ a ∈ d.attributes, validInputType a) :
    createVertexArrayTrace (F := F) (P := P) va descr index_buffer_name =
      (specVertexArrayTrace va descr index_buffer_name, none) := by
  have hB1 := layoutsCalls_eq_spec (F := F) (P := P) va descr 0 0 h
  have hB2 := specLayoutsRec_eq_enum (F := F) (P := P) va descr 0 0
  rw [createVertexArrayTrace]
  simp only [hB1, hB2, specVertexArrayTrace]
  simp

/-- Witness for claim C1 at a concrete two-layout descriptor. -/
theorem claim_C1_witness :
    createVertexArrayTrace (F := Int) (P := Unit) 1 demoDescriptor 5 =
      (specVertexArrayTrace 1 demoDescriptor 5, none) :=
  claim_C1 1 demoDescriptor 5 (by decide)

theorem layoutsCalls_snd_invalid (va : Nat) :
    ∀ (descr : List VertexLayout) (gidx lidx : Nat),
      ¬ (∀ d ∈ descr, ∀ a ∈ d.attributes, validInputType a) →
      (layoutsCalls (F := F) (P := P) va gidx lidx descr).2 =
        some (.mesh invalidInputTypeMsg)
  | [], _, _, h => absurd (by simp) h
  | d :: rest, gidx, lidx, h => by
      by_cases hd : ∀ a ∈ d.attributes, validInputType a
      · have hrest : ¬ ∀ x ∈ rest, ∀ a ∈ x.attributes, validInputType a :=
          fun hr => h (List.forall_mem_cons.mpr ⟨hd, hr⟩)
        have hattrs := attributesCalls_eq_spec (F := F) (P := P) va lidx
          d.attributes gidx hd
        rw [layoutsCalls]
        simp only [hattrs]
        exact layoutsCalls_snd_invalid va rest (gidx + d.attributes.length)
          (lidx + 1) hrest
      · have hattrs := attributesCalls_snd_invalid (F := F) (P := P) va lidx
          d.attributes gidx hd
        rw [layoutsCalls]
        rcases hsplit : (attributesCalls (F := F) (P := P) va gidx lidx
          d.attributes).2 with _ | e
        · rw [hsplit] at hattrs; exact absurd hattrs (by simp)
        · rw [hsplit] at hattrs
          simp only [hsplit]
          simpa using hattrs

/-- Claim C3: vertex-array construction throws the MeshException naming the
    invalid vertex shader input type exactly when some attribute's
    shader_input_type is none of GL_FLOAT, GL_INT, GL_UNSIGNED_INT,
    GL_DOUBLE; with an all-valid descriptor that exception branch is never
    reached (here shown with a clean driver error code, so the constructor
    succeeds). -/
theorem claim_C3 :
    (∀ (va : Nat) (descr : List VertexLayout) (index_buffer_name : Nat),
      (createVertexArrayTrace (F := F) (P := P) va descr
          index_buffer_name).2 = some (.mesh invalidInputTypeMsg) ↔
        ∃ d ∈ descr, ∃ a ∈ d.attributes, ¬ validInputType a) ∧
    (∀ (va : Nat) (descr : List VertexLayout) (draw_items_count : Int)
        (index_buffer_name index_data_type primitive_type : Nat),
      exceptIsError (vaoConstruct (F := F) (P := P) va descr draw_items_count
          index_buffer_name index_data_type primitive_type GL_NO_ERROR).2 =
        true ↔
      ∃ d ∈ descr, ∃ a ∈ d.attributes, ¬ validInputType a) := by
  constructor
  · intro va descr index_buffer_name
    constructor
    · intro hsome
      by_contra hne
      push_neg at hne
      have := layoutsCalls_eq_spec (F := F) (P := P) va descr 0 0 hne
      rw [createVertexArrayTrace] at hsome
      simp only [this] at hsome
      simp at hsome
    · rintro ⟨d, hd, a, ha, hinv⟩
      have hnall : ¬ ∀ d' ∈ descr, ∀ x ∈ d'.attributes, validInputType x :=
        fun hall => hinv (hall d hd a ha)
      have h2 := layoutsCalls_snd_invalid (F := F) (P := P) va descr 0 0 hnall
      rw [createVertexArrayTrace]
      rcases hsplit : (layoutsCalls (F := F) (P := P) va 0 0 descr).2 with _ | e
      · rw [hsplit] at h2; exact absurd h2 (by simp)
      · rw [hsplit] at h2
        simpa using h2
  · intro va descr draw_items_count index_buffer_name index_data_type
      primitive_type
    constructor
    · intro herr
      by_contra hne
      push_neg at hne
      have hB1 := layoutsCalls_eq_spec (F := F) (P := P) va descr 0 0 hne
      rw [vaoConstruct, createVertexArrayTrace] at herr
      simp only [hB1] at herr
      simp [exceptIsError, GL_NO_ERROR] at herr
    · rintro ⟨d, hd, a, ha, hinv⟩
      have hnall : ¬ ∀ d' ∈ descr, ∀ x ∈ d'.attributes, validInputType x :=
        fun hall => hinv (hall d hd a ha)
      have h2 := layoutsCalls_snd_invalid (F := F) (P := P) va descr 0 0 hnall
      rw [vaoConstruct, createVertexArrayTrace]
      rcases hsplit : (layoutsCalls (F := F) (P := P) va 0 0 descr).2 with _ | e
      · rw [hsplit] at h2; exact absurd h2 (by simp)
      · simp [exceptIsError]

/-- Witness for claim C3: the exception surfaces for a concrete descriptor
    containing a GL_SHORT shader input type. -/
theorem claim_C3_witness :
    (createVertexArrayTrace (F := Int) (P := Unit) 1 [invalidAttrLayout] 0).2 =
      some (.mesh invalidInputTypeMsg) :=
  (claim_C3.1 1 [invalidAttrLayout] 0).mpr (by decide)

/-! Section: Error-code checking (claim C2) -/

theorem isGetErrorCall_attribFormat (va gidx : Nat) (a : Attribute)
    (c : GLCall F P) (h : attribFormatCall va gidx a = .ok c) :
    isGetErrorCall c = false := by
  unfold attribFormatCall at h
  split_ifs at h
  · injection h with h'; subst h'; rfl
  · injection h with h'; subst h'; rfl
  · injection h with h'; subst h'; rfl

theorem attributesCalls_countP (va lidx : Nat) :
    ∀ (attrs : List Attribute) (gidx : Nat),
      ((attributesCalls (F := F) (P := P) va gidx lidx attrs).1.countP
        isGetErrorCall) = 0
  | [], _ => by simp [attributesCalls]
  | a :: rest, gidx => by
      rcases hfmt : attribFormatCall (F := F) (P := P) va gidx a with e | c
      · rw [attributesCalls, hfmt]
        simp [List.countP_cons, isGetErrorCall]
      · rw [attributesCalls, hfmt]
        have hc := isGetErrorCall_attribFormat va gidx a c hfmt
        have ih := attributesCalls_countP va lidx rest (gidx + 1)
        simp [List.countP_cons, isGetErrorCall, hc, ih]
        exact hc

theorem layoutsCalls_countP (va : Nat) :
    ∀ (descr : List VertexLayout) (gidx lidx : Nat),
      ((layoutsCalls (F := F) (P := P) va gidx lidx descr).1.countP
        isGetErrorCall) = 0
  | [], _, _ => by simp [layoutsCalls]
  | d :: rest, gidx, lidx => by
      have hattrs := attributesCalls_countP (F := F) (P := P) va lidx
        d.attributes gidx
      have ih := layoutsCalls_countP va rest (gidx + d.attributes.length)
        (lidx + 1)
      rw [layoutsCalls]
      rcases hsnd : (attributesCalls (F := F) (P := P) va gidx lidx
        d.attributes).2 with _ | e
      · simp only [hsnd]
        simp [List.countP_cons, List.countP_append, isGetErrorCall, hattrs, ih]
      · simp only [hsnd]
        simp [List.countP_cons, isGetErrorCall, hattrs]

theorem countP_texParameteri_map (params : List (Nat × Int)) :
    ((params.map (fun q =>
      GLCall.texParameteri (F := F) (P := P) GL_TEXTURE_2D_ARRAY q.1
        q.2)).countP isGetErrorCall) = 0 := by
  rw [List.countP_eq_zero]
  intro c hc
  obtain ⟨q, _, rfl⟩ := List.mem_map.mp hc
  simp [isGetErrorCall]

theorem countP_texParameterf_map (params : List (Nat × F)) :
    ((params.map (fun q =>
      GLCall.texParameterf (F := F) (P := P) GL_TEXTURE_2D_ARRAY q.1
        q.2)).countP isGetErrorCall) = 0 := by
  rw [List.countP_eq_zero]
  intro c hc
  obtain ⟨q, _, rfl⟩ := List.mem_map.mp hc
  simp [isGetErrorCall]

/-- Claim C2 (amended): after each completed mutating construction or reload
    sequence, glGetError is queried exactly once; the `VertexArrayObject`
    constructor (on descriptors whose attribute shader input types are all
    valid, so that its native call sequence completes) throws a
    MeshException iff the query returns non-success, while the
    `Texture2DArray` constructor and `ShaderStorageBufferObject::reload`
    print the non-success code to std::cerr and continue; in all three cases
    the native calls issued (and for the non-throwing two, the resulting
    object) do not depend on the error code, i.e. no recovery or retry is
    performed. -/
theorem claim_C2 :
    (∀ (va : Nat) (descr : List VertexLayout) (draw_items_count : Int)
        (index_buffer_name index_data_type primitive_type err : Nat),
      (∀ d ∈ descr, ∀ a ∈ d.attributes, validInputType a) →
      ((∃ msg, (vaoConstruct (F := F) (P := P) va descr draw_items_count
          index_buffer_name index_data_type primitive_type err).2 =
            .error (.mesh msg)) ↔ err ≠ GL_NO_ERROR) ∧
      ((vaoConstruct (F := F) (P := P) va descr draw_items_count
          index_buffer_name index_data_type primitive_type err).1.countP
        isGetErrorCall) = 1 ∧
      (vaoConstruct (F := F) (P := P) va descr draw_items_count
          index_buffer_name index_data_type primitive_type err).1 =
        (vaoConstruct (F := F) (P := P) va descr draw_items_count
          index_buffer_name index_data_type primitive_type GL_NO_ERROR).1) ∧
    (∀ (id : String) (layout : TextureLayout F) (data : Option P) (gm : Bool)
        (texName bh err : Nat),
      (((texture2DArrayConstruct id layout data gm texName bh err).2.2 ≠ []) ↔
        err ≠ GL_NO_ERROR) ∧
      ((texture2DArrayConstruct id layout data gm texName bh err).1.countP
        isGetErrorCall) = 1 ∧
      (texture2DArrayConstruct id layout data gm texName bh err).1 =
        (texture2DArrayConstruct id layout data gm texName bh GL_NO_ERROR).1 ∧
      (texture2DArrayConstruct id layout data gm texName bh err).2.1 =
        (texture2DArrayConstruct id layout data gm texName bh
          GL_NO_ERROR).2.1) ∧
    (∀ (obj : ShaderStorageBufferObject) (size index : Nat) (data : Option P)
        (err : Nat),
      (((ssboReload (F := F) (P := P) obj size index data err).2.2 ≠ []) ↔
        err ≠ GL_NO_ERROR) ∧
      ((ssboReload (F := F) (P := P) obj size index data err).2.1.countP
        isGetErrorCall) = 1 ∧
      (ssboReload (F := F) (P := P) obj size index data err).2.1 =
        (ssboReload (F := F) (P := P) obj size index data GL_NO_ERROR).2.1 ∧
      (ssboReload (F := F) (P := P) obj size index data err).1 =
        (ssboReload (F := F) (P := P) obj size index data GL_NO_ERROR).1) := by
  refine ⟨?_, ?_, ?_⟩
  · intro va descr draw_items_count index_buffer_name index_data_type
      primitive_type err hvalid
    have hsnd : (layoutsCalls (F := F) (P := P) va 0 0 descr).2 = none := by
      rw [layoutsCalls_eq_spec va descr 0 0 hvalid]
    have hcnt := layoutsCalls_countP (F := F) (P := P) va descr 0 0
    refine ⟨?_, ?_, ?_⟩
    · rw [vaoConstruct, createVertexArrayTrace]
      simp only [hsnd]
      by_cases herr : err = GL_NO_ERROR <;> simp [herr, checkErrorMsg]
    · rw [vaoConstruct, createVertexArrayTrace]
      simp only [hsnd]
      by_cases hib : index_buffer_name = 0 <;>
        simp [hib, List.countP_cons, List.countP_append, isGetErrorCall, hcnt]
    · simp only [vaoConstruct, createVertexArrayTrace, hsnd]
  · intro id layout data gm texName bh err
    refine ⟨?_, ?_, rfl, rfl⟩
    · by_cases herr : err = GL_NO_ERROR <;>
        simp [texture2DArrayConstruct, herr]
    · have hi := countP_texParameteri_map (F := F) (P := P)
        layout.int_parameters
      have hf := countP_texParameterf_map (F := F) (P := P)
        layout.float_parameters
      rcases data with _ | d <;> rcases gm with _ | _ <;>
        simp [texture2DArrayConstruct, List.countP_cons, List.countP_append,
          isGetErrorCall, hi, hf]
  · intro obj size index data err
    refine ⟨?_, ?_, rfl, rfl⟩
    · by_cases herr : err = GL_NO_ERROR <;> simp [ssboReload, herr]
    · simp [ssboReload, List.countP_cons, isGetErrorCall]

/-- Counterexample to claim C2 as stated: with a clean error code
    (GL_NO_ERROR) but a descriptor containing an invalid shader input type,
    the VertexArrayObject constructor still throws a MeshException, so
    "throws iff the native error query returns non-success" is false. -/
theorem claim_C2_counterexample :
    ¬ ((exceptIsError (vaoConstruct (F := Int) (P := Unit) 1
        [invalidAttrLayout] 0 0 GL_UNSIGNED_INT GL_TRIANGLES
        GL_NO_ERROR).2 = true) ↔ GL_NO_ERROR ≠ GL_NO_ERROR) := by
  decide

/-- Witness for claim C2: the amended theorem applied at concrete inputs,
    with a failing error code 0x501 for the VAO part and a clean one for the
    SSBO part. -/
theorem claim_C2_witness :
    (∃ msg, (vaoConstruct (F := Int) (P := Unit) 1 demoDescriptor 0 5
        GL_UNSIGNED_INT GL_TRIANGLES 0x501).2 = .error (.mesh msg)) ∧
    ((ssboReload (F := Int) (P := Unit)
        { m_handle := 2, m_size := 16, m_written_size := 0 } 32 0 none
        GL_NO_ERROR).2.2 ≠ []) = False :=
  ⟨((claim_C2.1 1 demoDescriptor 0 5 GL_UNSIGNED_INT GL_TRIANGLES 0x501
      (by decide)).1).mpr (by decide),
   eq_false (fun hne =>
     absurd ((((claim_C2 (F := Int) (P := Unit)).2.2
       { m_handle := 2, m_size := 16, m_written_size := 0 } 32 0 none
       GL_NO_ERROR).1).mp hne) (by decide))⟩

/-! Section: GLSLProgram construction (claim C4) -/

theorem getLast?_cons_append_concat {α : Type} (a x : α) (l m : List α) :
    (a :: (l ++ m ++ [x])).getLast? = some x := by
  rw [show a :: (l ++ m ++ [x]) = (a :: (l ++ m)) ++ [x] by simp]
  exact List.getLast?_concat _

theorem getLast?_cons_concat {α : Type} (a x : α) (l : List α) :
    (a :: (l ++ [x])).getLast? = some x := by
  rw [show a :: (l ++ [x]) = (a :: l) ++ [x] by simp]
  exact List.getLast?_concat _

theorem compileShaderFromString_snd (drv : GLDriver) (program shader ty : Nat)
    (src : String) :
    (compileShaderFromString (F := F) (P := P) drv program shader ty src).2 =
        none ↔
      src ≠ "" ∧ drv.compileOk ty src = true := by
  unfold compileShaderFromString
  split_ifs with h1 h2 <;> simp_all

theorem compileShaderList_snd (drv : GLDriver) (program : Nat) :
    ∀ (shaderList : List (Nat × String)) (i : Nat),
      ((compileShaderList (F := F) (P := P) drv program i shaderList).2 =
          none) ↔
        ∀ s ∈ shaderList, s.2 ≠ "" ∧ drv.compileOk s.1 s.2 = true
  | [], i => by simp [compileShaderList]
  | s :: rest, i => by
      rw [compileShaderList]
      rcases hc : (compileShaderFromString (F := F) (P := P) drv program
        (drv.shaderHandle i) s.1 s.2).2 with _ | e
      · have hhead : s.2 ≠ "" ∧ drv.compileOk s.1 s.2 = true :=
          (compileShaderFromString_snd drv program (drv.shaderHandle i)
            s.1 s.2).mp hc
        simp only [hc]
        rw [compileShaderList_snd drv program rest (i + 1)]
        simp [List.forall_mem_cons, hhead]
      · simp only [hc]
        constructor
        · intro h; exact absurd h (by simp)
        · intro hall
          have hhead := hall s (List.mem_cons_self s rest)
          rw [(compileShaderFromString_snd drv program (drv.shaderHandle i)
            s.1 s.2).mpr hhead] at hc
          exact absurd hc (by simp)

/-- Claim C4: GLSLProgram construction raises a GLSLProgramException iff
    some shader source is empty, some shader fails to compile, or the
    program fails to link; whenever the exception propagates out of the
    constructor the last native call issued is the deletion of the created
    program handle; and a shader whose compilation failed (non-empty source,
    compile failure) is deleted as the last call before its exception is
    thrown. -/
theorem claim_C4 :
    (∀ (drv : GLDriver) (program : Nat) (shaderList : List (Nat × String)),
      exceptIsError ((glslProgramConstruct (F := F) (P := P) drv program
          shaderList).2) = true ↔
        (∃ s ∈ shaderList, s.2 = "" ∨ drv.compileOk s.1 s.2 = false) ∨
          drv.linkOk = false) ∧
    (∀ (drv : GLDriver) (program : Nat) (shaderList : List (Nat × String)),
      exceptIsError ((glslProgramConstruct (F := F) (P := P) drv program
          shaderList).2) = true →
      ((glslProgramConstruct (F := F) (P := P) drv program
          shaderList).1).getLast? = some (.deleteProgram program)) ∧
    (∀ (drv : GLDriver) (program shader ty : Nat) (src : String),
      src ≠ "" → drv.compileOk ty src = false →
      ((compileShaderFromString (F := F) (P := P) drv program shader ty
          src).2 = some (.glslProgram (if (drv.compileInfoLog ty src).length >
            0 then drv.compileInfoLog ty src else ""))) ∧
      ((compileShaderFromString (F := F) (P := P) drv program shader ty
          src).1).getLast? = some (.deleteShader shader)) := by
  refine ⟨?_, ?_, ?_⟩
  · intro drv program shaderList
    rw [glslProgramConstruct]
    rcases h1 : (compileShaderList (F := F) (P := P) drv program 0
      shaderList).2 with _ | e
    · have hall := (compileShaderList_snd drv program shaderList 0).mp h1
      simp only [h1]
      rw [linkProgramCalls]
      rcases hlv : drv.linkOk with _ | _
      · simp [hlv, exceptIsError]
      · simp [hlv, exceptIsError]
        intro a b hs
        rcases hall (a, b) hs with ⟨hne, hok⟩
        simp [hne, hok]
    · have hbad : ¬ ∀ s ∈ shaderList, s.2 ≠ "" ∧
          drv.compileOk s.1 s.2 = true := by
        intro hall
        rw [(compileShaderList_snd drv program shaderList 0).mpr hall] at h1
        exact absurd h1 (by simp)
      simp only [h1, exceptIsError]
      constructor
      · intro _
        left
        push_neg at hbad
        obtain ⟨s, hs, hcond⟩ := hbad
        refine ⟨s, hs, ?_⟩
        by_cases hemp : s.2 = ""
        · exact Or.inl hemp
        · refine Or.inr ?_
          rcases hbool : drv.compileOk s.1 s.2 with _ | _
          · rfl
          · exact absurd hbool (hcond hemp)
      · intro _
        trivial
  · intro drv program shaderList herr
    rw [glslProgramConstruct] at herr ⊢
    rcases h1 : (compileShaderList (F := F) (P := P) drv program 0
      shaderList).2 with _ | e
    · simp only [h1] at herr ⊢
      rcases h2 : (linkProgramCalls (F := F) (P := P) drv program).2
        with _ | e2
      · simp only [h2, exceptIsError] at herr
        exact absurd herr (by simp)
      · simp only [h2]
        exact getLast?_cons_append_concat _ _ _ _
    · simp only [h1]
      exact getLast?_cons_concat _ _ _
  · intro drv program shader ty src hsrc hfail
    have hnot : ¬ drv.compileOk ty src = true := by simp [hfail]
    rw [compileShaderFromString, if_neg hsrc, if_neg hnot]
    exact ⟨rfl, List.getLast?_concat _⟩

/-- Witness for claim C4: an empty vertex shader source makes construction
    fail, and a concrete compile failure deletes the shader last. -/
theorem claim_C4_witness :
    exceptIsError ((glslProgramConstruct (F := Int) (P := Unit) demoDriver 7
      [(GL_VERTEX_SHADER, "")]).2) = true ∧
    ((compileShaderFromString (F := Int) (P := Unit) failCompileDriver 7 10
      GL_VERTEX_SHADER "void main() \x7b\x7d").1).getLast? =
      some (.deleteShader 10) :=
  ⟨(claim_C4.1 demoDriver 7 [(GL_VERTEX_SHADER, "")]).mpr
    (Or.inl ⟨(GL_VERTEX_SHADER, ""), by decide⟩),
   (claim_C4.2.2 failCompileDriver 7 10 GL_VERTEX_SHADER
     "void main() \x7b\x7d" (by decide) (by decide)).2⟩

/-! Section: Forwarding wrappers (claim C5) -/

/-- Claim C5 (amended): the wrapper operations the claim names are exact
    forwarders: each setUniform overload issues precisely the matching
    native uniform-upload call with the caller's values unchanged, at the
    location resolved from the given name (preceded only by that location
    query); use() issues exactly the native use-program call with the
    stored handle; bind() issues exactly the native bind call with the
    stored handle. -/
theorem claim_C5 :
    (∀ (p : GLSLProgram), glslUse (F := F) (P := P) p =
      [.useProgram p.m_handle]) ∧
    (∀ (obj : VertexArrayObject), vaoBind (F := F) (P := P) obj =
      [.bindVertexArray obj.m_va_handle]) ∧
    (∀ (drv : GLDriver) (p : GLSLProgram) (name : String) (v0 : F),
      setUniform1f (P := P) drv p name v0 =
        [.getUniformLocation p.m_handle name,
         .uniform1f (drv.uniformLoc p.m_handle name) v0]) ∧
    (∀ (drv : GLDriver) (p : GLSLProgram) (name : String) (v0 v1 : F),
      setUniform2f (P := P) drv p name v0 v1 =
        [.getUniformLocation p.m_handle name,
         .uniform2f (drv.uniformLoc p.m_handle name) v0 v1]) ∧
    (∀ (drv : GLDriver) (p : GLSLProgram) (name : String) (v0 v1 v2 : F),
      setUniform3f (P := P) drv p name v0 v1 v2 =
        [.getUniformLocation p.m_handle name,
         .uniform3f (drv.uniformLoc p.m_handle name) v0 v1 v2]) ∧
    (∀ (drv : GLDriver) (p : GLSLProgram) (name : String) (v0 v1 v2 v3 : F),
      setUniform4f (P := P) drv p name v0 v1 v2 v3 =
        [.getUniformLocation p.m_handle name,
         .uniform4f (drv.uniformLoc p.m_handle name) v0 v1 v2 v3]) ∧
    (∀ (drv : GLDriver) (p : GLSLProgram) (name : String) (v0 : Int),
      setUniform1i (F := F) (P := P) drv p name v0 =
        [.getUniformLocation p.m_handle name,
         .uniform1i (drv.uniformLoc p.m_handle name) v0]) ∧
    (∀ (drv : GLDriver) (p : GLSLProgram) (name : String) (v0 v1 : Int),
      setUniform2i (F := F) (P := P) drv p name v0 v1 =
        [.getUniformLocation p.m_handle name,
         .uniform2i (drv.uniformLoc p.m_handle name) v0 v1]) ∧
    (∀ (drv : GLDriver) (p : GLSLProgram) (name : String) (v0 v1 v2 : Int),
      setUniform3i (F := F) (P := P) drv p name v0 v1 v2 =
        [.getUniformLocation p.m_handle name,
         .uniform3i (drv.uniformLoc p.m_handle name) v0 v1 v2]) ∧
    (∀ (drv : GLDriver) (p : GLSLProgram) (name : String)
        (v0 v1 v2 v3 : Int),
      setUniform4i (F := F) (P := P) drv p name v0 v1 v2 v3 =
        [.getUniformLocation p.m_handle name,
         .uniform4i (drv.uniformLoc p.m_handle name) v0 v1 v2 v3]) ∧
    (∀ (drv : GLDriver) (p : GLSLProgram) (name : String) (v0 : Nat),
      setUniform1ui (F := F) (P := P) drv p name v0 =
        [.getUniformLocation p.m_handle name,
         .uniform1ui (drv.uniformLoc p.m_handle name) v0]) ∧
    (∀ (drv : GLDriver) (p : GLSLProgram) (name : String) (v0 v1 : Nat),
      setUniform2ui (F := F) (P := P) drv p name v0 v1 =
        [.getUniformLocation p.m_handle name,
         .uniform2ui (drv.uniformLoc p.m_handle name) v0 v1]) ∧
    (∀ (drv : GLDriver) (p : GLSLProgram) (name : String) (v0 v1 v2 : Nat),
      setUniform3ui (F := F) (P := P) drv p name v0 v1 v2 =
        [.getUniformLocation p.m_handle name,
         .uniform3ui (drv.uniformLoc p.m_handle name) v0 v1 v2]) ∧
    (∀ (drv : GLDriver) (p : GLSLProgram) (name : String)
        (v0 v1 v2 v3 : Nat),
      setUniform4ui (F := F) (P := P) drv p name v0 v1 v2 v3 =
        [.getUniformLocation p.m_handle name,
         .uniform4ui (drv.uniformLoc p.m_handle name) v0 v1 v2 v3]) ∧
    (∀ (drv : GLDriver) (p : GLSLProgram) (name : String) (v : Vec2 F),
      setUniformVec2 (P := P) drv p name v =
        [.getUniformLocation p.m_handle name,
         .uniform2fv (drv.uniformLoc p.m_handle name) 1 v]) ∧
    (∀ (drv : GLDriver) (p : GLSLProgram) (name : String) (v : Vec3 F),
      setUniformVec3 (P := P) drv p name v =
        [.getUniformLocation p.m_handle name,
         .uniform3fv (drv.uniformLoc p.m_handle name) 1 v]) ∧
    (∀ (drv : GLDriver) (p : GLSLProgram) (name : String) (v : Vec4 F),
      setUniformVec4 (P := P) drv p name v =
        [.getUniformLocation p.m_handle name,
         .uniform4fv (drv.uniformLoc p.m_handle name) 1 v]) ∧
    (∀ (drv : GLDriver) (p : GLSLProgram) (name : String) (v : Vec2 Int),
      setUniformIVec2 (F := F) (P := P) drv p name v =
        [.getUniformLocation p.m_handle name,
         .uniform2iv (drv.uniformLoc p.m_handle name) 1 v]) ∧
    (∀ (drv : GLDriver) (p : GLSLProgram) (name : String) (v : Vec3 Int),
      setUniformIVec3 (F := F) (P := P) drv p name v =
        [.getUniformLocation p.m_handle name,
         .uniform3iv (drv.uniformLoc p.m_handle name) 1 v]) ∧
    (∀ (drv : GLDriver) (p : GLSLProgram) (name : String) (v : Vec4 Int),
      setUniformIVec4 (F := F) (P := P) drv p name v =
        [.getUniformLocation p.m_handle name,
         .uniform4iv (drv.uniformLoc p.m_handle name) 1 v]) ∧
    (∀ (drv : GLDriver) (p : GLSLProgram) (name : String) (m : Mat2 F),
      setUniformMat2 (P := P) drv p name m =
        [.getUniformLocation p.m_handle name,
         .uniformMatrix2fv (drv.uniformLoc p.m_handle name) 1 false m]) ∧
    (∀ (drv : GLDriver) (p : GLSLProgram) (name : String) (m : Mat3 F),
      setUniformMat3 (P := P) drv p name m =
        [.getUniformLocation p.m_handle name,
         .uniformMatrix3fv (drv.uniformLoc p.m_handle name) 1 false m]) ∧
    (∀ (drv : GLDriver) (p : GLSLProgram) (name : String) (m : Mat4 F),
      setUniformMat4 (P := P) drv p name m =
        [.getUniformLocation p.m_handle name,
         .uniformMatrix4fv (drv.uniformLoc p.m_handle name) 1 false m]) := by
  refine ⟨?_, ?_, ?_, ?_, ?_, ?_, ?_, ?_, ?_, ?_, ?_, ?_, ?_, ?_, ?_, ?_,
    ?_, ?_, ?_, ?_, ?_, ?_, ?_⟩ <;> (intros; rfl)

/-- Counterexample to claim C5 as stated: `VertexArrayObject::draw` is a
    public wrapper method but issues three native calls (bind, one draw
    call, unbind with argument 0), not exactly one corresponding call. -/
theorem claim_C5_counterexample :
    (vaoDraw (F := Int) (P := Unit) demoVao 1).length = 3 ∧
    ¬ (vaoDraw (F := Int) (P := Unit) demoVao 1).length = 1 := by
  decide

/-! Section: Texture2DArray parameter forwarding (claims C6, C7) -/

theorem filterMap_map_none {α β γ : Type} (f : α → β) (g : β → Option γ)
    (l : List α) (h : ∀ a, g (f a) = none) : (l.map f).filterMap g = [] := by
  induction l with
  | nil => rfl
  | cons x rest ih => simp [List.filterMap_cons, h, ih]

theorem filterMap_texParameteriOf_map (target : Nat)
    (ps : List (Nat × Int)) :
    ((ps.map (fun q => GLCall.texParameteri (F := F) (P := P) target q.1
      q.2)).filterMap texParameteriOf) = ps := by
  induction ps with
  | nil => rfl
  | cons q rest ih => simp [List.filterMap_cons, texParameteriOf, ih]

theorem filterMap_texParameterfOf_map (target : Nat) (ps : List (Nat × F)) :
    ((ps.map (fun q => GLCall.texParameterf (F := F) (P := P) target q.1
      q.2)).filterMap texParameterfOf) = ps := by
  induction ps with
  | nil => rfl
  | cons q rest ih => simp [List.filterMap_cons, texParameterfOf, ih]

/-- Claim C6 (amended): the Texture2DArray constructor forwards the layout's
    parameters into the native calls unchanged with one exception: the level
    count passed to glTexStorage3D is not the layout's levels field but
    min(levels, 1 + floor(log2(max(width, height)))).  The texture parameter
    pairs and the sub-image format/type/data are forwarded verbatim.  The
    hypothesis keeps max(width, height) ≥ 1, where the C++ floor(log2(x))
    is defined and equals Nat.log2. -/
theorem claim_C6 (id : String) (layout : TextureLayout F) (data : Option P)
    (gm : Bool) (texName bh err : Nat)
    (_hwh : 1 ≤ max (uintOfInt layout.width) (uintOfInt layout.height)) :
    ((texture2DArrayConstruct id layout data gm texName bh err).1.filterMap
      texStorage3DLevelsOf) =
      [min layout.levels
        (1 + (Nat.log2 (max (uintOfInt layout.width)
          (uintOfInt layout.height)) : Int))] ∧
    ((texture2DArrayConstruct id layout data gm texName bh err).1.filterMap
      texParameteriOf) = layout.int_parameters ∧
    ((texture2DArrayConstruct id layout data gm texName bh err).1.filterMap
      texParameterfOf) = layout.float_parameters ∧
    ((texture2DArrayConstruct id layout data gm texName bh err).1.filterMap
      texSubImageFormatTypeOf) =
      (match data with
       | some d => [(layout.format, layout.type, some d)]
       | none => []) := by
  have hiL : ((layout.int_parameters.map (fun q =>
      GLCall.texParameteri (F := F) (P := P) GL_TEXTURE_2D_ARRAY q.1
        q.2)).filterMap texStorage3DLevelsOf) = [] :=
    filterMap_map_none _ _ _ (fun q => rfl)
  have hfL : ((layout.float_parameters.map (fun q =>
      GLCall.texParameterf (F := F) (P := P) GL_TEXTURE_2D_ARRAY q.1
        q.2)).filterMap texStorage3DLevelsOf) = [] :=
    filterMap_map_none _ _ _ (fun q => rfl)
  have hiI : ((layout.int_parameters.map (fun q =>
      GLCall.texParameteri (F := F) (P := P) GL_TEXTURE_2D_ARRAY q.1
        q.2)).filterMap texParameteriOf) = layout.int_parameters :=
    filterMap_texParameteriOf_map _ _
  have hfI : ((layout.float_parameters.map (fun q =>
      GLCall.texParameterf (F := F) (P := P) GL_TEXTURE_2D_ARRAY q.1
        q.2)).filterMap texParameteriOf) = [] :=
    filterMap_map_none _ _ _ (fun q => rfl)
  have hiF : ((layout.int_parameters.map (fun q =>
      GLCall.texParameteri (F := F) (P := P) GL_TEXTURE_2D_ARRAY q.1
        q.2)).filterMap texParameterfOf) = [] :=
    filterMap_map_none _ _ _ (fun q => rfl)
  have hfF : ((layout.float_parameters.map (fun q =>
      GLCall.texParameterf (F := F) (P := P) GL_TEXTURE_2D_ARRAY q.1
        q.2)).filterMap texParameterfOf) = layout.float_parameters :=
    filterMap_texParameterfOf_map _ _
  have hiS : ((layout.int_parameters.map (fun q =>
      GLCall.texParameteri (F := F) (P := P) GL_TEXTURE_2D_ARRAY q.1
        q.2)).filterMap texSubImageFormatTypeOf) = [] :=
    filterMap_map_none _ _ _ (fun q => rfl)
  have hfS : ((layout.float_parameters.map (fun q =>
      GLCall.texParameterf (F := F) (P := P) GL_TEXTURE_2D_ARRAY q.1
        q.2)).filterMap texSubImageFormatTypeOf) = [] :=
    filterMap_map_none _ _ _ (fun q => rfl)
  rcases data with _ | d <;> rcases gm with _ | _ <;>
    refine ⟨?_, ?_, ?_, ?_⟩ <;>
      simp [texture2DArrayConstruct, texStorageLevels, List.filterMap_append,
        List.filterMap_cons, texStorage3DLevelsOf, texParameteriOf,
        texParameterfOf, texSubImageFormatTypeOf, hiL, hfL, hiI, hfI, hiF,
        hfF, hiS, hfS]

/-- Counterexample to claim C6 as stated: a layout requesting 10 mipmap
    levels on a 1 x 1 x 1 texture results in a glTexStorage3D call with
    level count 1, not the layout's levels field 10. -/
theorem claim_C6_counterexample :
    ((texture2DArrayConstruct "t" clampDemoLayout (none : Option Unit) false
      1 0 GL_NO_ERROR).1.filterMap texStorage3DLevelsOf) = [1] ∧
    clampDemoLayout.levels = 10 := by
  refine ⟨?_, by decide⟩
  have hl : Nat.log2 1 = 0 := by simp [Nat.log2]
  norm_num [texture2DArrayConstruct, clampDemoLayout, texStorageLevels, hl,
    List.filterMap_cons, List.filterMap_append, texStorage3DLevelsOf,
    uintOfInt]

/-- Witness for claim C6 at the concrete clamped layout. -/
theorem claim_C6_witness :
    ((texture2DArrayConstruct "t" clampDemoLayout (none : Option Unit) false
      1 0 GL_NO_ERROR).1.filterMap texStorage3DLevelsOf) =
      [min clampDemoLayout.levels
        (1 + (Nat.log2 (max (uintOfInt clampDemoLayout.width)
          (uintOfInt clampDemoLayout.height)) : Int))] :=
  (claim_C6 "t" clampDemoLayout (none : Option Unit) false 1 0 GL_NO_ERROR
    (by decide)).1

/-- Claim C7: configuration descriptors are retained verbatim:
    `getVertexLayouts` returns exactly the constructor's vertex descriptor,
    and `getTextureLayout` agrees with the construction layout on
    internal_format, width, height, depth, format, type and levels (the int
    fields under the GLint range conditions that make the C++ int-unsigned
    round trips the identity). -/
theorem claim_C7 :
    (∀ (va : Nat) (descr : List VertexLayout) (draw_items_count : Int)
        (index_buffer_name index_data_type primitive_type err : Nat)
        (obj : VertexArrayObject),
      (vaoConstruct (F := F) (P := P) va descr draw_items_count
          index_buffer_name index_data_type primitive_type err).2 =
        .ok obj →
      getVertexLayouts obj = descr) ∧
    (∀ (id : String) (layout : TextureLayout F) (data : Option P) (gm : Bool)
        (texName bh err : Nat),
      -(2 ^ 31) ≤ layout.internal_format → layout.internal_format < 2 ^ 31 →
      -(2 ^ 31) ≤ layout.width → layout.width < 2 ^ 31 →
      -(2 ^ 31) ≤ layout.height → layout.height < 2 ^ 31 →
      -(2 ^ 31) ≤ layout.depth → layout.depth < 2 ^ 31 →
      (getTextureLayout ((texture2DArrayConstruct id layout data gm texName
          bh err).2.1) : TextureLayout F).internal_format =
        layout.internal_format ∧
      (getTextureLayout ((texture2DArrayConstruct id layout data gm texName
          bh err).2.1) : TextureLayout F).width = layout.width ∧
      (getTextureLayout ((texture2DArrayConstruct id layout data gm texName
          bh err).2.1) : TextureLayout F).height = layout.height ∧
      (getTextureLayout ((texture2DArrayConstruct id layout data gm texName
          bh err).2.1) : TextureLayout F).depth = layout.depth ∧
      (getTextureLayout ((texture2DArrayConstruct id layout data gm texName
          bh err).2.1) : TextureLayout F).format = layout.format ∧
      (getTextureLayout ((texture2DArrayConstruct id layout data gm texName
          bh err).2.1) : TextureLayout F).type = layout.type ∧
      (getTextureLayout ((texture2DArrayConstruct id layout data gm texName
          bh err).2.1) : TextureLayout F).levels = layout.levels) := by
  constructor
  · intro va descr draw_items_count index_buffer_name index_data_type
      primitive_type err obj h
    simp only [vaoConstruct] at h
    rcases hsnd : (createVertexArrayTrace (F := F) (P := P) va descr
      index_buffer_name).2 with _ | e
    · simp only [hsnd] at h
      split_ifs at h
      injection h with h'
      subst h'
      rfl
    · simp only [hsnd] at h
      exact Except.noConfusion h
  · intro id layout data gm texName bh err h1 h2 h3 h4 h5 h6 h7 h8
    refine ⟨?_, ?_, ?_, ?_, rfl, rfl, rfl⟩
    · exact intOfUint_uintOfInt _ h1 h2
    · exact intOfUint_uintOfInt _ h3 h4
    · exact intOfUint_uintOfInt _ h5 h6
    · exact intOfUint_uintOfInt _ h7 h8

/-- Witness for claim C7: both getters evaluated at concrete
    constructions. -/
theorem claim_C7_witness :
    getVertexLayouts
      { m_va_handle := 1, m_vertex_descriptor := demoDescriptor,
        m_primitive_type := GL_TRIANGLES, m_draw_items_count := 0,
        m_index_type := GL_UNSIGNED_INT, m_index_buffer_name := 5 } =
      demoDescriptor ∧
    (getTextureLayout ((texture2DArrayConstruct "t" clampDemoLayout
      (none : Option Unit) false 1 0 GL_NO_ERROR).2.1) :
        TextureLayout Int).width = clampDemoLayout.width :=
  ⟨(claim_C7 (F := Int) (P := Unit)).1 1 demoDescriptor 0 5 GL_UNSIGNED_INT
    GL_TRIANGLES GL_NO_ERROR _ (by rfl),
   ((claim_C7 (F := Int) (P := Unit)).2 "t" clampDemoLayout none false 1 0
     GL_NO_ERROR (by decide) (by decide) (by decide) (by decide) (by decide)
     (by decide) (by decide) (by decide)).2.1⟩

/-! Section: ShaderStorageBufferObject size (claim C10) -/

/-- Claim C10: `getSize` returns the size argument of the most recent reload
    (or of the constructor if reload was never called); reload stores the
    size before the native calls and the error check, so the stored size,
    like the rest of the resulting state, does not depend on the error
    code and is not rolled back on error. -/
theorem claim_C10 :
    (∀ (obj : ShaderStorageBufferObject) (size index : Nat)
        (data : Option P) (err : Nat),
      getSize (ssboReload (F := F) (P := P) obj size index data err).1 =
        size) ∧
    (∀ (handle size : Nat) (data : Option P),
      getSize (ssboConstruct (F := F) (P := P) handle size data).1 = size) ∧
    (∀ (obj : ShaderStorageBufferObject) (size index : Nat)
        (data : Option P) (err : Nat),
      (ssboReload (F := F) (P := P) obj size index data err).1 =
        (ssboReload (F := F) (P := P) obj size index data GL_NO_ERROR).1) :=
  ⟨fun _ _ _ _ _ => rfl, fun _ _ _ => rfl, fun _ _ _ _ _ => rfl⟩

end Glowl
